import Mathlib

/-!
Shallow embedding of `src/color.py` (a Python translation of John Walker's
specrend.c), the colorimetric core of the openrgb-temperature repository.

Python floats are modelled by an arbitrary linear ordered field `α`
(instantiated at `ℚ` for decidable claims and at `ℝ` where the code uses
`math.exp`).  Division is the field's total division; every claim that
depends on a denominator carries the corresponding nonzero hypothesis, as
the claims themselves do.  Python runtime exceptions are modelled with
`Except PyError`.
-/

namespace Specrend

/-- Python runtime errors that the embedded code can raise: `TypeError`
(e.g. a float raised to a tuple power) and `ZeroDivisionError` (division by
zero, or `0.0` raised to a negative power). -/
inductive PyError where
  | typeError : PyError
  | zeroDivision : PyError
  deriving DecidableEq

/-- The `gamma` field of a `ColorSystem`: either the sentinel object
`GAMMA_REC709` (`object()` in the source) or a numeric gamma value
(`color.py` line 68 and the registry lines 71-76). -/
inductive Gamma (α : Type) where
  | rec709 : Gamma α
  | power : α → Gamma α
  deriving DecidableEq

/-- The `ColorSystem` namedtuple of `color.py` lines 45-52: CIE x and y of
the three primaries and of the white point, plus the gamma selector. -/
structure ColorSystem (α : Type) where
  name : String
  x_red : α
  y_red : α
  x_green : α
  y_green : α
  x_blue : α
  y_blue : α
  x_white : α
  y_white : α
  gamma : Gamma α

variable {α : Type} [LinearOrderedField α]

/-- White point chromaticity for NTSC television (`ILLUMINANT_C`, line 56). -/
def ILLUMINANT_C : α × α := (0.3101, 0.3162)

/-- White point chromaticity for EBU and SMPTE (`ILLUMINANT_D65`, line 57). -/
def ILLUMINANT_D65 : α × α := (0.3127, 0.3291)

/-- CIE equal-energy illuminant (`ILLUMINANT_E`, line 58). -/
def ILLUMINANT_E : α × α := (0.33333333, 0.33333333)

/-- The Rec. 709 sentinel (`GAMMA_REC709 = object()`, line 68). -/
def GAMMA_REC709 : Gamma α := Gamma.rec709

/-- Registry preset (line 71). -/
def NTSC_SYSTEM : ColorSystem α :=
  ⟨"NTSC", 0.67, 0.33, 0.21, 0.71, 0.14, 0.08,
    (ILLUMINANT_C : α × α).1, (ILLUMINANT_C : α × α).2, GAMMA_REC709⟩

/-- Registry preset (line 72). -/
def EBU_SYSTEM : ColorSystem α :=
  ⟨"EBU (PAL/SECAM)", 0.64, 0.33, 0.29, 0.60, 0.15, 0.06,
    (ILLUMINANT_D65 : α × α).1, (ILLUMINANT_D65 : α × α).2, GAMMA_REC709⟩

/-- Registry preset (line 73). -/
def SMPTE_SYSTEM : ColorSystem α :=
  ⟨"SMPTE", 0.630, 0.340, 0.310, 0.595, 0.155, 0.070,
    (ILLUMINANT_D65 : α × α).1, (ILLUMINANT_D65 : α × α).2, GAMMA_REC709⟩

/-- Registry preset (line 74). -/
def HDTV_SYSTEM : ColorSystem α :=
  ⟨"HDTV", 0.670, 0.330, 0.210, 0.710, 0.150, 0.060,
    (ILLUMINANT_D65 : α × α).1, (ILLUMINANT_D65 : α × α).2, GAMMA_REC709⟩

/-- Registry preset (line 75). -/
def CIE_SYSTEM : ColorSystem α :=
  ⟨"CIE", 0.7355, 0.2645, 0.2658, 0.7243, 0.1669, 0.0085,
    (ILLUMINANT_E : α × α).1, (ILLUMINANT_E : α × α).2, GAMMA_REC709⟩

/-- Registry preset (line 76). -/
def REC709_SYSTEM : ColorSystem α :=
  ⟨"CIE REC 709", 0.64, 0.33, 0.30, 0.60, 0.15, 0.06,
    (ILLUMINANT_D65 : α × α).1, (ILLUMINANT_D65 : α × α).2, GAMMA_REC709⟩

/-- `upvp_to_xy` (lines 78-84): 1976 u', v' to 1931 x, y. -/
def upvp_to_xy (up vp : α) : α × α :=
  ((9 * up) / ((6 * up) - (16 * vp) + 12),
   (4 * vp) / ((6 * up) - (16 * vp) + 12))

/-- `xy_to_upvp` (lines 86-92): 1931 x, y to 1976 u', v'. -/
def xy_to_upvp (xc yc : α) : α × α :=
  ((4 * xc) / ((-2 * xc) + (12 * yc) + 3),
   (9 * yc) / ((-2 * xc) + (12 * yc) + 3))

/-- Derived z of the red primary, `zr = 1 - (xr + yr)` (line 109). -/
def zr (cs : ColorSystem α) : α := 1 - (cs.x_red + cs.y_red)

/-- Derived z of the green primary (line 110). -/
def zg (cs : ColorSystem α) : α := 1 - (cs.x_green + cs.y_green)

/-- Derived z of the blue primary (line 111). -/
def zb (cs : ColorSystem α) : α := 1 - (cs.x_blue + cs.y_blue)

/-- Derived z of the white point (line 113). -/
def zw (cs : ColorSystem α) : α := 1 - (cs.x_white + cs.y_white)

/-- Unscaled xyz→rgb matrix entry `rx` (line 117). -/
def rx (cs : ColorSystem α) : α := cs.y_green * zb cs - cs.y_blue * zg cs

/-- Unscaled xyz→rgb matrix entry `ry` (line 117). -/
def ry (cs : ColorSystem α) : α := cs.x_blue * zg cs - cs.x_green * zb cs

/-- Unscaled xyz→rgb matrix entry `rz` (line 117). -/
def rz (cs : ColorSystem α) : α := cs.x_green * cs.y_blue - cs.x_blue * cs.y_green

/-- Unscaled xyz→rgb matrix entry `gx` (line 118). -/
def gx (cs : ColorSystem α) : α := cs.y_blue * zr cs - cs.y_red * zb cs

/-- Unscaled xyz→rgb matrix entry `gy` (line 118). -/
def gy (cs : ColorSystem α) : α := cs.x_red * zb cs - cs.x_blue * zr cs

/-- Unscaled xyz→rgb matrix entry `gz` (line 118). -/
def gz (cs : ColorSystem α) : α := cs.x_blue * cs.y_red - cs.x_red * cs.y_blue

/-- Unscaled xyz→rgb matrix entry `bx` (line 119). -/
def bx (cs : ColorSystem α) : α := cs.y_red * zg cs - cs.y_green * zr cs

/-- Unscaled xyz→rgb matrix entry `by` (line 119; `by` is a Lean keyword, so
the capitalised name `bY` stands for it). -/
def bY (cs : ColorSystem α) : α := cs.x_green * zr cs - cs.x_red * zg cs

/-- Unscaled xyz→rgb matrix entry `bz` (line 119). -/
def bz (cs : ColorSystem α) : α := cs.x_red * cs.y_green - cs.x_green * cs.y_red

/-- White scaling factor `rw` (line 124; capitalised to keep clear of the
`rw` tactic). -/
def rW (cs : ColorSystem α) : α :=
  (rx cs * cs.x_white + ry cs * cs.y_white + rz cs * zw cs) / cs.y_white

/-- White scaling factor `gw` (line 125). -/
def gW (cs : ColorSystem α) : α :=
  (gx cs * cs.x_white + gy cs * cs.y_white + gz cs * zw cs) / cs.y_white

/-- White scaling factor `bw` (line 126). -/
def bW (cs : ColorSystem α) : α :=
  (bx cs * cs.x_white + bY cs * cs.y_white + bz cs * zw cs) / cs.y_white

/-- `xyz_to_rgb` (lines 94-140): scale each matrix row by its white factor
(lines 130-132) and apply the scaled matrix to the requested tristimulus
values (lines 136-140). -/
def xyz_to_rgb (cs : ColorSystem α) (xc yc zc : α) : α × α × α :=
  (rx cs / rW cs * xc + ry cs / rW cs * yc + rz cs / rW cs * zc,
   gx cs / gW cs * xc + gy cs / gW cs * yc + gz cs / gW cs * zc,
   bx cs / bW cs * xc + bY cs / bW cs * yc + bz cs / bW cs * zc)

/-- `inside_gamut` (lines 142-150): all three primary weights non-negative. -/
def inside_gamut (r g b : α) : Bool :=
  decide (0 ≤ r) && decide (0 ≤ g) && decide (0 ≤ b)

/-- `constrain_rgb` (lines 155-173), transcribed clause by clause:
`w = 0 if 0 < r else r`, then `w = w if w < g else g`,
`w = w if w < b else b`, `w = -w`; if `w > 0` add `w` to every channel,
otherwise return the input unchanged. -/
def constrain_rgb (r g b : α) : α × α × α :=
  let w0 := if 0 < r then 0 else r
  let w1 := if w0 < g then w0 else g
  let w2 := if w1 < b then w1 else b
  let w := -w2
  if 0 < w then (r + w, g + w, b + w) else (r, g, b)

/-- Rec. 709 branch of `gamma_correct` (lines 189-198).  On both sides of
the threshold the Python source raises `TypeError`: below the threshold it
evaluates `c ** (cc, 0.45)` (a float raised to a tuple — C's
`pow(cc, 0.45)` transcribed wrongly), and at or above the threshold it
evaluates `c ** (*c, 0.45)`, which fails while unpacking the float `c`
into a tuple.  So neither branch produces a number. -/
noncomputable def rec709_branch (c : ℝ) : Except PyError ℝ :=
  let cc : ℝ := 0.018
  if c < cc then Except.error PyError.typeError
  else Except.error PyError.typeError

/-- `gamma_correct` (lines 175-201).  With the Rec. 709 sentinel it enters
the Rec. 709 branch (which raises, see `rec709_branch`); with a numeric
gamma it returns `c ** (1.0 / gamma)` (real power; the Python caveats for a
negative base are outside every claim considered here). -/
noncomputable def gamma_correct (cs : ColorSystem ℝ) (c : ℝ) : Except PyError ℝ :=
  match cs.gamma with
  | Gamma.rec709 => rec709_branch c
  | Gamma.power g => Except.ok (Real.rpow c (1.0 / g))

/-- `gamma_correct_rgb` (lines 203-208), componentwise gamma correction. -/
noncomputable def gamma_correct_rgb (cs : ColorSystem ℝ) (r g b : ℝ) :
    Except PyError ℝ × Except PyError ℝ × Except PyError ℝ :=
  (gamma_correct cs r, gamma_correct cs g, gamma_correct cs b)

/-- `norm_rgb` (lines 210-221): divide all channels by the greatest when it
is positive, otherwise return the input unchanged. -/
def norm_rgb (r g b : α) : α × α × α :=
  let greatest := max r (max g b)
  if 0 < greatest then (r / greatest, g / greatest, b / greatest)
  else (r, g, b)

/-- The CIE color matching table `CIE_COLOR_MATCH` (lines 223-251): 81
triples (xBar, yBar, zBar), one per 5 nm from 380 nm to 780 nm. -/
def CIE_COLOR_MATCH : List (α × α × α) :=
  [(0.0014, 0.0000, 0.0065), (0.0022, 0.0001, 0.0105), (0.0042, 0.0001, 0.0201),
   (0.0076, 0.0002, 0.0362), (0.0143, 0.0004, 0.0679), (0.0232, 0.0006, 0.1102),
   (0.0435, 0.0012, 0.2074), (0.0776, 0.0022, 0.3713), (0.1344, 0.0040, 0.6456),
   (0.2148, 0.0073, 1.0391), (0.2839, 0.0116, 1.3856), (0.3285, 0.0168, 1.6230),
   (0.3483, 0.0230, 1.7471), (0.3481, 0.0298, 1.7826), (0.3362, 0.0380, 1.7721),
   (0.3187, 0.0480, 1.7441), (0.2908, 0.0600, 1.6692), (0.2511, 0.0739, 1.5281),
   (0.1954, 0.0910, 1.2876), (0.1421, 0.1126, 1.0419), (0.0956, 0.1390, 0.8130),
   (0.0580, 0.1693, 0.6162), (0.0320, 0.2080, 0.4652), (0.0147, 0.2586, 0.3533),
   (0.0049, 0.3230, 0.2720), (0.0024, 0.4073, 0.2123), (0.0093, 0.5030, 0.1582),
   (0.0291, 0.6082, 0.1117), (0.0633, 0.7100, 0.0782), (0.1096, 0.7932, 0.0573),
   (0.1655, 0.8620, 0.0422), (0.2257, 0.9149, 0.0298), (0.2904, 0.9540, 0.0203),
   (0.3597, 0.9803, 0.0134), (0.4334, 0.9950, 0.0087), (0.5121, 1.0000, 0.0057),
   (0.5945, 0.9950, 0.0039), (0.6784, 0.9786, 0.0027), (0.7621, 0.9520, 0.0021),
   (0.8425, 0.9154, 0.0018), (0.9163, 0.8700, 0.0017), (0.9786, 0.8163, 0.0014),
   (1.0263, 0.7570, 0.0011), (1.0567, 0.6949, 0.0010), (1.0622, 0.6310, 0.0008),
   (1.0456, 0.5668, 0.0006), (1.0026, 0.5030, 0.0003), (0.9384, 0.4412, 0.0002),
   (0.8544, 0.3810, 0.0002), (0.7514, 0.3210, 0.0001), (0.6424, 0.2650, 0.0000),
   (0.5419, 0.2170, 0.0000), (0.4479, 0.1750, 0.0000), (0.3608, 0.1382, 0.0000),
   (0.2835, 0.1070, 0.0000), (0.2187, 0.0816, 0.0000), (0.1649, 0.0610, 0.0000),
   (0.1212, 0.0446, 0.0000), (0.0874, 0.0320, 0.0000), (0.0636, 0.0232, 0.0000),
   (0.0468, 0.0170, 0.0000), (0.0329, 0.0119, 0.0000), (0.0227, 0.0082, 0.0000),
   (0.0158, 0.0057, 0.0000), (0.0114, 0.0041, 0.0000), (0.0081, 0.0029, 0.0000),
   (0.0058, 0.0021, 0.0000), (0.0041, 0.0015, 0.0000), (0.0029, 0.0010, 0.0000),
   (0.0020, 0.0007, 0.0000), (0.0014, 0.0005, 0.0000), (0.0010, 0.0004, 0.0000),
   (0.0007, 0.0002, 0.0000), (0.0005, 0.0002, 0.0000), (0.0003, 0.0001, 0.0000),
   (0.0002, 0.0001, 0.0000), (0.0002, 0.0001, 0.0000), (0.0001, 0.0000, 0.0000),
   (0.0001, 0.0000, 0.0000), (0.0001, 0.0000, 0.0000), (0.0000, 0.0000, 0.0000)]

/-- The accumulation loop of `spectrum_to_xyz` (lines 266-282): iterate over
the color-matching table together with a running index (Python's
`for i, cm in enumerate(CIE_COLOR_MATCH)`), sample the source at wavelength
`380 + i * 5`, and accumulate the weighted X, Y, Z sums. -/
def spectrum_accumulate (spec_intens : α → α) : α × α × α :=
  ((CIE_COLOR_MATCH (α := α)).foldl
    (fun (s : ℕ × α × α × α) cm =>
      let lam : α := ((380 + s.1 * 5 : ℕ) : α)
      let me := spec_intens lam
      (s.1 + 1, s.2.1 + me * cm.1, s.2.2.1 + me * cm.2.1, s.2.2.2 + me * cm.2.2))
    (0, 0, 0, 0)).2

/-- `spectrum_to_xyz` (lines 253-290): accumulate X, Y, Z and divide each by
the tristimulus sum `XYZ = X + Y + Z` (lines 284-290). -/
def spectrum_to_xyz (spec_intens : α → α) : α × α × α :=
  let acc := spectrum_accumulate spec_intens
  let xyzSum := acc.1 + acc.2.1 + acc.2.2
  (acc.1 / xyzSum, acc.2.1 / xyzSum, acc.2.2 / xyzSum)

/-- Body of the Planck closure `planck` inside `bb_spectrum` (lines 292-302)
for the points where every float operation is defined:
`3.74183e-16 * wlm**(-5.0) / (exp(1.4388e-2 / (wlm * bb_temp)) - 1.0)` with
`wlm = wavelength * 1e-9`.  Python evaluates `wlm ** (-5.0)` with the
integral float exponent `-5.0`, which agrees with the integer power
`wlm ^ (-5 : ℤ)` for every nonzero base. -/
noncomputable def planck_value (bb_temp wavelength : ℝ) : ℝ :=
  let wlm : ℝ := wavelength * 1e-9
  3.74183e-16 * wlm ^ (-5 : ℤ) / (Real.exp (1.4388e-2 / (wlm * bb_temp)) - 1.0)

/-- `bb_spectrum` (lines 292-302) as an error-aware source: the returned
closure raises `ZeroDivisionError` when `wlm = 0` (`0.0 ** -5.0`), when
`wlm * bb_temp = 0` (the division inside `exp`), or when the denominator
`exp(...) - 1` is zero; otherwise it returns the Planck value.  The Python
floats can additionally overflow inside `exp` for extreme inputs; that
floating-point range limit has no counterpart in this real-valued model. -/
noncomputable def bb_spectrum (bb_temp : ℝ) : ℝ → Except PyError ℝ :=
  fun wavelength =>
    let wlm : ℝ := wavelength * 1e-9
    if wlm = 0 then Except.error PyError.zeroDivision
    else if wlm * bb_temp = 0 then Except.error PyError.zeroDivision
    else if Real.exp (1.4388e-2 / (wlm * bb_temp)) - 1.0 = 0 then
      Except.error PyError.zeroDivision
    else Except.ok (planck_value bb_temp wavelength)

/-- Tests whether an `Except` result is a success (`.ok`). -/
def isOkResult {ε β : Type} : Except ε β → Bool
  | Except.ok _ => true
  | Except.error _ => false


/-- Taylor polynomial of degree 8 for the exponential, used to certify
rational bounds on the Planck denominators. -/
noncomputable def expP9 (x : ℝ) : ℝ :=
  1 + x + x^2/2 + x^3/6 + x^4/24 + x^5/120 + x^6/720 + x^7/5040 + x^8/40320

/-- Weighted sum of two lists, used to state certified bounds on the
spectral accumulation loop. -/
noncomputable def wsum : List ℝ → List ℝ → ℝ
  | a :: as, b :: bs => a * b + wsum as bs
  | _, _ => 0

/-- The source values at indices k, k+1, ... lie inside the given list of
lower/upper bound pairs. -/
def srcBounds (me : ℕ → ℝ) : ℕ → List (ℝ × ℝ) → Prop
  | _, [] => True
  | k, p :: rest => (p.1 ≤ me k ∧ me k ≤ p.2) ∧ srcBounds me (k + 1) rest

/-- The Planck source at 6500 K sampled at wavelength 380 + 5i nm, exactly
as the accumulation loop of `spectrum_to_xyz` samples it. -/
noncomputable def me6500 (i : ℕ) : ℝ := planck_value 6500 ((380 + i * 5 : ℕ) : ℝ)

/-- Certified integer bounds on the 81 samples `me6500 0, ..., me6500 80`
(proved in `pb0`-`pb80` below). -/
noncomputable def BND6500 : List (ℝ × ℝ) :=
  [((139843056889989 : ℝ), 139843057426500),
   ((141322394733367 : ℝ), 141322395217772),
   ((142662551036189 : ℝ), 142662551473691),
   ((143866818966495 : ℝ), 143866819361770),
   ((144938726519460 : ℝ), 144938726876713),
   ((145881997615661 : ℝ), 145881997938670),
   ((146700516246067 : ℝ), 146700516538227),
   ((147398293574544 : ℝ), 147398293838907),
   ((147979437889445 : ℝ), 147979438128755),
   ((148448127281473 : ℝ), 148448127498196),
   ((148808584914737 : ℝ), 148808585111089),
   ((149065056751187 : ℝ), 149065056929162),
   ((149221791584770 : ℝ), 149221791746159),
   ((149283023240259 : ℝ), 149283023386675),
   ((149252954792305 : ℝ), 149252954925197),
   ((149135744662448 : ℝ), 149135744783121),
   ((148935494455346 : ℝ), 148935494564976),
   ((148656238399913 : ℝ), 148656238499558),
   ((148301934266331 : ℝ), 148301934356942),
   ((147876455635646 : ℝ), 147876455718082),
   ((147383585404840 : ℝ), 147383585479876),
   ((146827010416627 : ℝ), 146827010484959),
   ((146210317109703 : ℝ), 146210317171960),
   ((145536988091713 : ℝ), 145536988148462),
   ((144810399543583 : ℝ), 144810399595338),
   ((144033819370188 : ℝ), 144033819417410),
   ((143210406018425 : ℝ), 143210406061533),
   ((142343207889682 : ℝ), 142343207929053),
   ((141435163279303 : ℝ), 141435163315279),
   ((140489100781073 : ℝ), 140489100813962),
   ((139507740099829 : ℝ), 139507740129911),
   ((138493693220135 : ℝ), 138493693247662),
   ((137449465883489 : ℝ), 137449465908691),
   ((136377459330791 : ℝ), 136377459353875),
   ((135279972270761 : ℝ), 135279972291915),
   ((134159203038703 : ℝ), 134159203058098),
   ((133017251913452 : ℝ), 133017251931242),
   ((131856123563514 : ℝ), 131856123579841),
   ((130677729596359 : ℝ), 130677729611349),
   ((129483891187536 : ℝ), 129483891201305),
   ((128276341768780 : ℝ), 128276341781433),
   ((127056729756567 : ℝ), 127056729768201),
   ((125826621304672 : ℝ), 125826621315373),
   ((124587503066197 : ℝ), 124587503076045),
   ((123340784952309 : ℝ), 123340784961376),
   ((122087802876483 : ℝ), 122087802884834),
   ((120829821474529 : ℝ), 120829821482225),
   ((119568036791978 : ℝ), 119568036799073),
   ((118303578931577 : ℝ), 118303578938121),
   ((117037514654746 : ℝ), 117037514660785),
   ((115770849931795 : ℝ), 115770849937370),
   ((114504532436561 : ℝ), 114504532441709),
   ((113239453981933 : ℝ), 113239453986689),
   ((111976452893399 : ℝ), 111976452897796),
   ((110716316318399 : ℝ), 110716316322465),
   ((109459782469790 : ℝ), 109459782473551),
   ((108207542802255 : ℝ), 108207542805736),
   ((106960244120899 : ℝ), 106960244124123),
   ((105718490621663 : ℝ), 105718490624648),
   ((104482845863523 : ℝ), 104482845866289),
   ((103253834672745 : ℝ), 103253834675310),
   ((102031944979705 : ℝ), 102031944982083),
   ((100817629589006 : ℝ), 100817629591213),
   ((99611307883838 : ℝ), 99611307885886),
   ((98413367465638 : ℝ), 98413367467539),
   ((97224165730308 : ℝ), 97224165732075),
   ((96044031382298 : ℝ), 96044031383940),
   ((94873265887998 : ℝ), 94873265889524),
   ((93712144869937 : ℝ), 93712144871356),
   ((92560919443360 : ℝ), 92560919444680),
   ((91419817496780 : ℝ), 91419817498009),
   ((90289044918149 : ℝ), 90289044919293),
   ((89168786768310 : ℝ), 89168786769376),
   ((88059208403399 : ℝ), 88059208404392),
   ((86960456547870 : ℝ), 86960456548796),
   ((85872660319815 : ℝ), 85872660320678),
   ((84795932210231 : ℝ), 84795932211035),
   ((83730369017878 : ℝ), 83730369018629),
   ((82676052741347 : ℝ), 82676052742047),
   ((81633051429925 : ℝ), 81633051430579),
   ((80601419994825 : ℝ), 80601419995436)]


/-- The brightness scale of the `__main__` loop (line 337) at t = 6500. -/
noncomputable def main_tscale : ℝ := 2.25 * (6500 - 500) / 11500

/-- Line 339 of the `__main__` loop at t = 6500: the integrated chromaticity
of the 6500 K blackbody (every sample of `bb_spectrum 6500` succeeds with
the Planck value, see `main_source_agrees`, so the source is embedded by its
value function). -/
noncomputable def main_xyz : ℝ × ℝ × ℝ := spectrum_to_xyz (planck_value 6500)

/-- Line 340: the chromaticity scaled by `tscale` — these are the x, y, z
values the program prints for 6500 K. -/
noncomputable def main_scaled : ℝ × ℝ × ℝ :=
  (main_xyz.1 * main_tscale, main_xyz.2.1 * main_tscale, main_xyz.2.2 * main_tscale)

/-- Line 341: linear SMPTE RGB of the scaled chromaticity. -/
noncomputable def main_rgb : ℝ × ℝ × ℝ :=
  xyz_to_rgb SMPTE_SYSTEM main_scaled.1 main_scaled.2.1 main_scaled.2.2

/-- Line 342: the constrained RGB — these are the R, G, B values the program
prints for 6500 K. -/
noncomputable def main_constrained : ℝ × ℝ × ℝ :=
  constrain_rgb main_rgb.1 main_rgb.2.1 main_rgb.2.2

/-- C7: for every (x, y) with the forward denominator −2x+12y+3 nonzero and
the reverse denominator 6u′−16v′+12 of the resulting (u′, v′) nonzero,
`upvp_to_xy` applied to `xy_to_upvp x y` recovers (x, y) within 1e-9 (in
fact exactly). -/
theorem xy_upvp_roundtrip (x y : ℚ) (h1 : (-2) * x + 12 * y + 3 ≠ 0)
    (h2 : 6 * (xy_to_upvp x y).1 - 16 * (xy_to_upvp x y).2 + 12 ≠ 0) :
    |(upvp_to_xy (xy_to_upvp x y).1 (xy_to_upvp x y).2).1 - x| ≤ 1e-9 ∧
    |(upvp_to_xy (xy_to_upvp x y).1 (xy_to_upvp x y).2).2 - y| ≤ 1e-9 := by
  have key : upvp_to_xy (xy_to_upvp x y).1 (xy_to_upvp x y).2 = (x, y) := by
    simp only [xy_to_upvp, upvp_to_xy] at *
    have h12 : (12 : ℚ) = 12 * (-2 * x + 12 * y + 3) / (-2 * x + 12 * y + 3) := by
      rw [mul_div_assoc, div_self h1, mul_one]
    have hx : (6 : ℚ) * (4 * x / (-2 * x + 12 * y + 3)) -
        16 * (9 * y / (-2 * x + 12 * y + 3)) + 12 = 36 / (-2 * x + 12 * y + 3) := by
      calc 6 * (4 * x / (-2 * x + 12 * y + 3)) - 16 * (9 * y / (-2 * x + 12 * y + 3)) + 12
          = 24 * x / (-2 * x + 12 * y + 3) - 144 * y / (-2 * x + 12 * y + 3) +
            12 * (-2 * x + 12 * y + 3) / (-2 * x + 12 * y + 3) := by
            rw [← h12]; ring
        _ = (24 * x - 144 * y + 12 * (-2 * x + 12 * y + 3)) / (-2 * x + 12 * y + 3) := by
            rw [div_sub_div_same, div_add_div_same]
        _ = 36 / (-2 * x + 12 * y + 3) := by
            rw [show (24 * x - 144 * y + 12 * (-2 * x + 12 * y + 3) : ℚ) = 36 from by ring]
    rw [Prod.ext_iff]
    constructor
    · show 9 * (4 * x / (-2 * x + 12 * y + 3)) / _ = x
      rw [hx, show (9 : ℚ) * (4 * x / (-2 * x + 12 * y + 3)) =
        36 * x / (-2 * x + 12 * y + 3) from by ring, div_div_div_cancel_right₀ h1,
        mul_comm, mul_div_assoc, div_self (by norm_num : (36 : ℚ) ≠ 0), mul_one]
    · show 4 * (9 * y / (-2 * x + 12 * y + 3)) / _ = y
      rw [hx, show (4 : ℚ) * (9 * y / (-2 * x + 12 * y + 3)) =
        36 * y / (-2 * x + 12 * y + 3) from by ring, div_div_div_cancel_right₀ h1,
        mul_comm, mul_div_assoc, div_self (by norm_num : (36 : ℚ) ≠ 0), mul_one]
  rw [key]
  norm_num

/-- Witness for C7 at the concrete chromaticity (1/3, 1/3). -/
theorem xy_upvp_roundtrip_at_third :
    (-2) * (1/3 : ℚ) + 12 * (1/3) + 3 ≠ 0 ∧
    6 * (xy_to_upvp (1/3 : ℚ) (1/3)).1 - 16 * (xy_to_upvp (1/3 : ℚ) (1/3)).2 + 12 ≠ 0 ∧
    (|(upvp_to_xy (xy_to_upvp (1/3 : ℚ) (1/3)).1 (xy_to_upvp (1/3 : ℚ) (1/3)).2).1 - 1/3| ≤ 1e-9 ∧
     |(upvp_to_xy (xy_to_upvp (1/3 : ℚ) (1/3)).1 (xy_to_upvp (1/3 : ℚ) (1/3)).2).2 - 1/3| ≤ 1e-9) :=
  ⟨by norm_num, by norm_num [xy_to_upvp],
    xy_upvp_roundtrip (1/3) (1/3) (by norm_num) (by norm_num [xy_to_upvp])⟩

/-- C5: `constrain_rgb` adds w = −min(0, r, g, b) to every channel when that
w is positive and otherwise returns its input unchanged; an in-gamut triple
is returned unchanged, and the minimum channel of the result is ≥ −1e-9 (in
fact ≥ 0). -/
theorem constrain_rgb_spec (r g b : ℚ) :
    constrain_rgb r g b =
      (if 0 < -(min (min (min 0 r) g) b) then
        (r + -(min (min (min 0 r) g) b), g + -(min (min (min 0 r) g) b),
         b + -(min (min (min 0 r) g) b))
      else (r, g, b)) ∧
    (inside_gamut r g b = true → constrain_rgb r g b = (r, g, b)) ∧
    -(1e-9 : ℚ) ≤ min (min (constrain_rgb r g b).1 (constrain_rgb r g b).2.1)
        (constrain_rgb r g b).2.2 := by
  have h0 : (if 0 < r then (0 : ℚ) else r) = min 0 r := by
    rw [min_def]; split_ifs <;> linarith
  have hmin : ∀ w c : ℚ, (if w < c then w else c) = min w c := by
    intro w c; rw [min_def]; split_ifs <;> linarith
  have hdef : constrain_rgb r g b =
      (if 0 < -(min (min (min 0 r) g) b) then
        (r + -(min (min (min 0 r) g) b), g + -(min (min (min 0 r) g) b),
         b + -(min (min (min 0 r) g) b))
      else (r, g, b)) := by
    unfold constrain_rgb
    simp only [h0, hmin]
  refine ⟨hdef, ?_, ?_⟩
  · intro hin
    have hr : (0 : ℚ) ≤ r := by
      simpa using (by simpa [inside_gamut] using hin : (0 ≤ r ∧ 0 ≤ g) ∧ 0 ≤ b).1.1
    have hg : (0 : ℚ) ≤ g := by
      simpa using (by simpa [inside_gamut] using hin : (0 ≤ r ∧ 0 ≤ g) ∧ 0 ≤ b).1.2
    have hb : (0 : ℚ) ≤ b := by
      simpa using (by simpa [inside_gamut] using hin : (0 ≤ r ∧ 0 ≤ g) ∧ 0 ≤ b).2
    have hm : (0 : ℚ) ≤ min (min (min 0 r) g) b :=
      le_min (le_min (le_min le_rfl hr) hg) hb
    rw [hdef, if_neg (by linarith)]
  · have hsub : min (min (min (0 : ℚ) r) g) b ≤ min (min r g) b :=
      min_le_min (min_le_min (min_le_right 0 r) le_rfl) le_rfl
    rw [hdef]
    split_ifs with hcase
    · have : min (min (r + -(min (min (min 0 r) g) b)) (g + -(min (min (min 0 r) g) b)))
          (b + -(min (min (min 0 r) g) b)) =
          min (min r g) b + -(min (min (min 0 r) g) b) := by
        rw [min_add_add_right, min_add_add_right]
      simp only [this]
      linarith
    · simp only []
      have hm : (0 : ℚ) ≤ min (min (min 0 r) g) b := by linarith
      have : (0 : ℚ) ≤ min (min r g) b := le_trans hm hsub
      linarith

/-- C6: when m = max(r, g, b) is positive, `norm_rgb` divides every channel
by m, the maximum component of the result equals 1 within 1e-9 (in fact
exactly), and the pairwise channel ratios are preserved (stated by cross
multiplication); when m ≤ 0 the input is returned unchanged. -/
theorem norm_rgb_spec (r g b : ℚ) :
    (0 < max r (max g b) →
      norm_rgb r g b =
        (r / max r (max g b), g / max r (max g b), b / max r (max g b)) ∧
      |max (norm_rgb r g b).1 (max (norm_rgb r g b).2.1 (norm_rgb r g b).2.2) - 1| ≤ 1e-9 ∧
      (norm_rgb r g b).1 * g = (norm_rgb r g b).2.1 * r ∧
      (norm_rgb r g b).1 * b = (norm_rgb r g b).2.2 * r ∧
      (norm_rgb r g b).2.1 * b = (norm_rgb r g b).2.2 * g) ∧
    (max r (max g b) ≤ 0 → norm_rgb r g b = (r, g, b)) := by
  constructor
  · intro h
    have hval : norm_rgb r g b =
        (r / max r (max g b), g / max r (max g b), b / max r (max g b)) := by
      unfold norm_rgb
      rw [if_pos h]
    refine ⟨hval, ?_, ?_, ?_, ?_⟩
    · rw [hval]
      show |max (r / _) (max (g / _) (b / _)) - 1| ≤ _
      rw [max_div_div_right h.le, max_div_div_right h.le, div_self (ne_of_gt h)]
      norm_num
    · rw [hval]; show r / _ * g = g / _ * r; ring
    · rw [hval]; show r / _ * b = b / _ * r; ring
    · rw [hval]; show g / _ * b = b / _ * g; ring
  · intro h
    unfold norm_rgb
    rw [if_neg (not_lt.mpr h)]

/-- C4: whenever the accumulated tristimulus sum S = X + Y + Z over the 81
samples is positive, the three components returned by `spectrum_to_xyz` sum
to 1 within 1e-9 (in fact exactly). -/
theorem spectrum_to_xyz_sums_to_one (f : ℚ → ℚ)
    (h : 0 < (spectrum_accumulate f).1 + (spectrum_accumulate f).2.1 +
      (spectrum_accumulate f).2.2) :
    |(spectrum_to_xyz f).1 + (spectrum_to_xyz f).2.1 + (spectrum_to_xyz f).2.2 - 1| ≤
      1e-9 := by
  have hne : (spectrum_accumulate f).1 + (spectrum_accumulate f).2.1 +
      (spectrum_accumulate f).2.2 ≠ 0 := ne_of_gt h
  have key : (spectrum_to_xyz f).1 + (spectrum_to_xyz f).2.1 + (spectrum_to_xyz f).2.2 = 1 := by
    unfold spectrum_to_xyz
    simp only []
    rw [div_add_div_same, div_add_div_same, div_self hne]
  rw [key]
  norm_num

/-- Witness for C4 with the constant source of intensity 1. -/
theorem spectrum_to_xyz_sums_to_one_const :
    (0 < (spectrum_accumulate (fun _ => (1 : ℚ))).1 +
      (spectrum_accumulate (fun _ => (1 : ℚ))).2.1 +
      (spectrum_accumulate (fun _ => (1 : ℚ))).2.2) ∧
    |(spectrum_to_xyz (fun _ => (1 : ℚ))).1 + (spectrum_to_xyz (fun _ => (1 : ℚ))).2.1 +
      (spectrum_to_xyz (fun _ => (1 : ℚ))).2.2 - 1| ≤ 1e-9 := by
  have h : 0 < (spectrum_accumulate (fun _ => (1 : ℚ))).1 +
      (spectrum_accumulate (fun _ => (1 : ℚ))).2.1 +
      (spectrum_accumulate (fun _ => (1 : ℚ))).2.2 := by
    norm_num [spectrum_accumulate, CIE_COLOR_MATCH]
  exact ⟨h, spectrum_to_xyz_sums_to_one _ h⟩

/-- C10: `xyz_to_rgb` is linear in its tristimulus argument (exactly, in the
exact-field model; hence within floating tolerance for floats). -/
theorem xyz_to_rgb_linear (cs : ColorSystem ℚ) (a b X1 Y1 Z1 X2 Y2 Z2 : ℚ)
    (_h1 : rW cs ≠ 0) (_h2 : gW cs ≠ 0) (_h3 : bW cs ≠ 0) :
    xyz_to_rgb cs (a * X1 + b * X2) (a * Y1 + b * Y2) (a * Z1 + b * Z2) =
      (a * (xyz_to_rgb cs X1 Y1 Z1).1 + b * (xyz_to_rgb cs X2 Y2 Z2).1,
       a * (xyz_to_rgb cs X1 Y1 Z1).2.1 + b * (xyz_to_rgb cs X2 Y2 Z2).2.1,
       a * (xyz_to_rgb cs X1 Y1 Z1).2.2 + b * (xyz_to_rgb cs X2 Y2 Z2).2.2) := by
  unfold xyz_to_rgb
  simp only [Prod.mk.injEq]
  refine ⟨?_, ?_, ?_⟩ <;> ring

/-- Witness for C10: linearity at the SMPTE system with concrete scalars and
tristimulus triples. -/
theorem xyz_to_rgb_linear_at_smpte :
    rW (SMPTE_SYSTEM : ColorSystem ℚ) ≠ 0 ∧ gW (SMPTE_SYSTEM : ColorSystem ℚ) ≠ 0 ∧
    bW (SMPTE_SYSTEM : ColorSystem ℚ) ≠ 0 ∧
    xyz_to_rgb (SMPTE_SYSTEM : ColorSystem ℚ) (1 * 3 + 2 * 10) (1 * 4 + 2 * 11)
        (1 * 5 + 2 * 12) =
      (1 * (xyz_to_rgb SMPTE_SYSTEM 3 4 5).1 + 2 * (xyz_to_rgb SMPTE_SYSTEM 10 11 12).1,
       1 * (xyz_to_rgb SMPTE_SYSTEM 3 4 5).2.1 + 2 * (xyz_to_rgb SMPTE_SYSTEM 10 11 12).2.1,
       1 * (xyz_to_rgb SMPTE_SYSTEM 3 4 5).2.2 + 2 * (xyz_to_rgb SMPTE_SYSTEM 10 11 12).2.2) := by
  have h1 : rW (SMPTE_SYSTEM : ColorSystem ℚ) ≠ 0 := by
    norm_num [rW, rx, ry, rz, zr, zg, zb, zw, SMPTE_SYSTEM, ILLUMINANT_D65]
  have h2 : gW (SMPTE_SYSTEM : ColorSystem ℚ) ≠ 0 := by
    norm_num [gW, gx, gy, gz, zr, zg, zb, zw, SMPTE_SYSTEM, ILLUMINANT_D65]
  have h3 : bW (SMPTE_SYSTEM : ColorSystem ℚ) ≠ 0 := by
    norm_num [bW, bx, bY, bz, zr, zg, zb, zw, SMPTE_SYSTEM, ILLUMINANT_D65]
  exact ⟨h1, h2, h3, xyz_to_rgb_linear SMPTE_SYSTEM 1 2 3 4 5 10 11 12 h1 h2 h3⟩

/-- C3: applying `xyz_to_rgb` to any positive multiple of the white point's
tristimulus values (x_w, y_w, 1−x_w−y_w) yields r ≈ g ≈ b within 1e-6 (in
fact exact equality, all three equal t·y_white), for every system with
nonzero white luminance and nonzero white-scale factors. -/
theorem xyz_to_rgb_white_balanced (cs : ColorSystem ℚ) (t : ℚ) (_ht : 0 < t)
    (hyw : cs.y_white ≠ 0) (h1 : rW cs ≠ 0) (h2 : gW cs ≠ 0) (h3 : bW cs ≠ 0) :
    |(xyz_to_rgb cs (t * cs.x_white) (t * cs.y_white) (t * zw cs)).1 -
      (xyz_to_rgb cs (t * cs.x_white) (t * cs.y_white) (t * zw cs)).2.1| ≤ 1e-6 ∧
    |(xyz_to_rgb cs (t * cs.x_white) (t * cs.y_white) (t * zw cs)).2.1 -
      (xyz_to_rgb cs (t * cs.x_white) (t * cs.y_white) (t * zw cs)).2.2| ≤ 1e-6 := by
  have hrnum : rW cs * cs.y_white =
      rx cs * cs.x_white + ry cs * cs.y_white + rz cs * zw cs := by
    rw [rW]; exact div_mul_cancel₀ _ hyw
  have hgnum : gW cs * cs.y_white =
      gx cs * cs.x_white + gy cs * cs.y_white + gz cs * zw cs := by
    rw [gW]; exact div_mul_cancel₀ _ hyw
  have hbnum : bW cs * cs.y_white =
      bx cs * cs.x_white + bY cs * cs.y_white + bz cs * zw cs := by
    rw [bW]; exact div_mul_cancel₀ _ hyw
  have hr : (xyz_to_rgb cs (t * cs.x_white) (t * cs.y_white) (t * zw cs)).1 =
      t * cs.y_white := by
    show rx cs / rW cs * (t * cs.x_white) + ry cs / rW cs * (t * cs.y_white) +
      rz cs / rW cs * (t * zw cs) = t * cs.y_white
    rw [show rx cs / rW cs * (t * cs.x_white) + ry cs / rW cs * (t * cs.y_white) +
        rz cs / rW cs * (t * zw cs) =
        t * (rx cs * cs.x_white + ry cs * cs.y_white + rz cs * zw cs) / rW cs from by
      ring]
    rw [← hrnum, show t * (rW cs * cs.y_white) = t * cs.y_white * rW cs from by ring,
      mul_div_cancel_right₀ _ h1]
  have hg : (xyz_to_rgb cs (t * cs.x_white) (t * cs.y_white) (t * zw cs)).2.1 =
      t * cs.y_white := by
    show gx cs / gW cs * (t * cs.x_white) + gy cs / gW cs * (t * cs.y_white) +
      gz cs / gW cs * (t * zw cs) = t * cs.y_white
    rw [show gx cs / gW cs * (t * cs.x_white) + gy cs / gW cs * (t * cs.y_white) +
        gz cs / gW cs * (t * zw cs) =
        t * (gx cs * cs.x_white + gy cs * cs.y_white + gz cs * zw cs) / gW cs from by
      ring]
    rw [← hgnum, show t * (gW cs * cs.y_white) = t * cs.y_white * gW cs from by ring,
      mul_div_cancel_right₀ _ h2]
  have hb : (xyz_to_rgb cs (t * cs.x_white) (t * cs.y_white) (t * zw cs)).2.2 =
      t * cs.y_white := by
    show bx cs / bW cs * (t * cs.x_white) + bY cs / bW cs * (t * cs.y_white) +
      bz cs / bW cs * (t * zw cs) = t * cs.y_white
    rw [show bx cs / bW cs * (t * cs.x_white) + bY cs / bW cs * (t * cs.y_white) +
        bz cs / bW cs * (t * zw cs) =
        t * (bx cs * cs.x_white + bY cs * cs.y_white + bz cs * zw cs) / bW cs from by
      ring]
    rw [← hbnum, show t * (bW cs * cs.y_white) = t * cs.y_white * bW cs from by ring,
      mul_div_cancel_right₀ _ h3]
  rw [hr, hg, hb]
  norm_num

/-- Witness for C3: the SMPTE system's white point, scaled by t = 2. -/
theorem xyz_to_rgb_white_balanced_at_smpte :
    (0 < (2 : ℚ) ∧ (SMPTE_SYSTEM : ColorSystem ℚ).y_white ≠ 0 ∧
     rW (SMPTE_SYSTEM : ColorSystem ℚ) ≠ 0 ∧ gW (SMPTE_SYSTEM : ColorSystem ℚ) ≠ 0 ∧
     bW (SMPTE_SYSTEM : ColorSystem ℚ) ≠ 0) ∧
    (|(xyz_to_rgb (SMPTE_SYSTEM : ColorSystem ℚ) (2 * SMPTE_SYSTEM.x_white)
        (2 * SMPTE_SYSTEM.y_white) (2 * zw SMPTE_SYSTEM)).1 -
      (xyz_to_rgb (SMPTE_SYSTEM : ColorSystem ℚ) (2 * SMPTE_SYSTEM.x_white)
        (2 * SMPTE_SYSTEM.y_white) (2 * zw SMPTE_SYSTEM)).2.1| ≤ 1e-6 ∧
     |(xyz_to_rgb (SMPTE_SYSTEM : ColorSystem ℚ) (2 * SMPTE_SYSTEM.x_white)
        (2 * SMPTE_SYSTEM.y_white) (2 * zw SMPTE_SYSTEM)).2.1 -
      (xyz_to_rgb (SMPTE_SYSTEM : ColorSystem ℚ) (2 * SMPTE_SYSTEM.x_white)
        (2 * SMPTE_SYSTEM.y_white) (2 * zw SMPTE_SYSTEM)).2.2| ≤ 1e-6) := by
  have hyw : (SMPTE_SYSTEM : ColorSystem ℚ).y_white ≠ 0 := by
    norm_num [SMPTE_SYSTEM, ILLUMINANT_D65]
  have h1 : rW (SMPTE_SYSTEM : ColorSystem ℚ) ≠ 0 := by
    norm_num [rW, rx, ry, rz, zr, zg, zb, zw, SMPTE_SYSTEM, ILLUMINANT_D65]
  have h2 : gW (SMPTE_SYSTEM : ColorSystem ℚ) ≠ 0 := by
    norm_num [gW, gx, gy, gz, zr, zg, zb, zw, SMPTE_SYSTEM, ILLUMINANT_D65]
  have h3 : bW (SMPTE_SYSTEM : ColorSystem ℚ) ≠ 0 := by
    norm_num [bW, bx, bY, bz, zr, zg, zb, zw, SMPTE_SYSTEM, ILLUMINANT_D65]
  exact ⟨⟨by norm_num, hyw, h1, h2, h3⟩,
    xyz_to_rgb_white_balanced SMPTE_SYSTEM 2 (by norm_num) hyw h1 h2 h3⟩

/-- C9: every one of the six registry presets carries the Rec. 709 sentinel
in its gamma field, so `gamma_correct` invoked with any registry preset
always takes the Rec. 709 branch and the power-law branch is unreachable
through the registry. -/
theorem registry_gamma_all_rec709 :
    ((NTSC_SYSTEM : ColorSystem ℝ).gamma = GAMMA_REC709 ∧
     (EBU_SYSTEM : ColorSystem ℝ).gamma = GAMMA_REC709 ∧
     (SMPTE_SYSTEM : ColorSystem ℝ).gamma = GAMMA_REC709 ∧
     (HDTV_SYSTEM : ColorSystem ℝ).gamma = GAMMA_REC709 ∧
     (CIE_SYSTEM : ColorSystem ℝ).gamma = GAMMA_REC709 ∧
     (REC709_SYSTEM : ColorSystem ℝ).gamma = GAMMA_REC709) ∧
    ∀ c : ℝ,
      gamma_correct NTSC_SYSTEM c = rec709_branch c ∧
      gamma_correct EBU_SYSTEM c = rec709_branch c ∧
      gamma_correct SMPTE_SYSTEM c = rec709_branch c ∧
      gamma_correct HDTV_SYSTEM c = rec709_branch c ∧
      gamma_correct CIE_SYSTEM c = rec709_branch c ∧
      gamma_correct REC709_SYSTEM c = rec709_branch c :=
  ⟨⟨rfl, rfl, rfl, rfl, rfl, rfl⟩, fun _ => ⟨rfl, rfl, rfl, rfl, rfl, rfl⟩⟩

/-- Helper: the transcribed Rec. 709 branch raises `TypeError` on every
input, on both sides of the 0.018 threshold. -/
theorem rec709_branch_raises (c : ℝ) :
    rec709_branch c = Except.error PyError.typeError := by
  simp only [rec709_branch]
  split <;> rfl

/-- C1 (code bug): with a Rec. 709-mode system, `gamma_correct` does not
return the claimed piecewise values c·4.5 (below 0.018) and
1.099·c^0.45 − 0.099 (at or above 0.018); the Python expressions
`c ** (cc, 0.45)` and `c ** (*c, 0.45)` raise `TypeError` on both sides of
the threshold. -/
theorem gamma_correct_rec709_raises_typeerror :
    gamma_correct (SMPTE_SYSTEM : ColorSystem ℝ) 0.5 = Except.error PyError.typeError ∧
    gamma_correct (SMPTE_SYSTEM : ColorSystem ℝ) 0.01 = Except.error PyError.typeError :=
  ⟨rec709_branch_raises 0.5, rec709_branch_raises 0.01⟩

/-- C8 counterexample: at the non-physical temperature −6500 K the source
returned by `bb_spectrum` silently returns a value at wavelength 500 nm
instead of failing with an invalid-input error. -/
theorem bb_spectrum_negative_temp_silent :
    isOkResult (bb_spectrum (-6500) 500) = true := by
  have h1 : ((500 : ℝ) * 1e-9) ≠ 0 := by norm_num
  have h2 : ((500 : ℝ) * 1e-9) * (-6500) ≠ 0 := by norm_num
  have harg : (1.4388e-2 : ℝ) / (((500 : ℝ) * 1e-9) * (-6500)) < 0 := by
    apply div_neg_of_pos_of_neg <;> norm_num
  have h3 : Real.exp ((1.4388e-2 : ℝ) / (((500 : ℝ) * 1e-9) * (-6500))) - 1.0 ≠ 0 := by
    have hlt : Real.exp ((1.4388e-2 : ℝ) / (((500 : ℝ) * 1e-9) * (-6500))) < 1 :=
      Real.exp_lt_one_iff.mpr harg
    intro hc
    rw [sub_eq_zero] at hc
    rw [hc] at hlt
    norm_num at hlt
  simp only [bb_spectrum]
  rw [if_neg h1, if_neg h2, if_neg h3]
  rfl

/-- C8 (amended): in the real-valued model the source returned by
`bb_spectrum` succeeds with the Planck intensity whenever temperature and
wavelength are positive; it raises `ZeroDivisionError` when the wavelength
is zero (`0.0 ** -5.0`) or when the temperature is zero with a nonzero
wavelength (division by zero inside `exp`); there is no input-validation
(InvalidInput) error, and negative temperatures or wavelengths silently
produce a value (see `bb_spectrum_negative_temp_silent`). -/
theorem bb_spectrum_cases (T lam : ℝ) :
    (0 < T → 0 < lam → bb_spectrum T lam = Except.ok (planck_value T lam)) ∧
    (bb_spectrum T 0 = Except.error PyError.zeroDivision) ∧
    (T = 0 → lam ≠ 0 → bb_spectrum T lam = Except.error PyError.zeroDivision) := by
  refine ⟨?_, ?_, ?_⟩
  · intro hT hlam
    have hwlm : lam * 1e-9 ≠ 0 := ne_of_gt (mul_pos hlam (by norm_num))
    have hprod : lam * 1e-9 * T ≠ 0 :=
      ne_of_gt (mul_pos (mul_pos hlam (by norm_num)) hT)
    have harg : 0 < (1.4388e-2 : ℝ) / (lam * 1e-9 * T) :=
      div_pos (by norm_num) (mul_pos (mul_pos hlam (by norm_num)) hT)
    have hexp : Real.exp ((1.4388e-2 : ℝ) / (lam * 1e-9 * T)) - 1.0 ≠ 0 := by
      have hgt : 1 < Real.exp ((1.4388e-2 : ℝ) / (lam * 1e-9 * T)) :=
        Real.one_lt_exp_iff.mpr harg
      intro hc
      rw [sub_eq_zero] at hc
      rw [hc] at hgt
      norm_num at hgt
    simp only [bb_spectrum]
    rw [if_neg hwlm, if_neg hprod, if_neg hexp]
  · simp only [bb_spectrum]
    rw [if_pos (by norm_num : (0 : ℝ) * 1e-9 = 0)]
  · intro hT0 hlam
    have hwlm : lam * 1e-9 ≠ 0 := mul_ne_zero hlam (by norm_num)
    simp only [bb_spectrum]
    rw [if_neg hwlm, if_pos (by rw [hT0, mul_zero])]

/-- Lower Taylor bound: the degree-8 polynomial is below `exp` on [0, ∞). -/
theorem expP9_le_exp (x : ℝ) (h0 : 0 ≤ x) : expP9 x ≤ Real.exp x := by
  have h := Real.sum_le_exp_of_nonneg h0 9
  have hsum : ∑ i ∈ Finset.range 9, x ^ i / (Nat.factorial i) = expP9 x := by
    simp [Finset.sum_range_succ, Nat.factorial, expP9]
  rw [← hsum]
  exact h

/-- Upper Taylor bound on [0, 1] with the standard remainder estimate. -/
theorem exp_le_expP9 (x : ℝ) (h0 : 0 ≤ x) (h1 : x ≤ 1) :
    Real.exp x ≤ expP9 x + x ^ 9 * 10 / 3265920 := by
  have h := @Real.exp_bound' x h0 h1 9 (by norm_num)
  have hsum : ∑ i ∈ Finset.range 9, x ^ i / (Nat.factorial i) = expP9 x := by
    simp [Finset.sum_range_succ, Nat.factorial, expP9]
  calc Real.exp x ≤ (∑ i ∈ Finset.range 9, x ^ i / (Nat.factorial i)) +
        x ^ 9 * (9 + 1) / (Nat.factorial 9 * 9) := h
    _ = expP9 x + x ^ 9 * 10 / 3265920 := by
        rw [hsum]
        norm_num [Nat.factorial]

/-- Sixteenth-power bounds for `exp a` when `a = 16 x` with x in [0, 1]. -/
theorem exp16_bounds (x a : ℝ) (h0 : 0 ≤ x) (h1 : x ≤ 1) (ha : a = 16 * x) :
    expP9 x ^ 16 ≤ Real.exp a ∧
      Real.exp a ≤ (expP9 x + x ^ 9 * 10 / 3265920) ^ 16 := by
  have hP : 0 ≤ expP9 x := by unfold expP9; positivity
  have he : Real.exp a = Real.exp x ^ 16 := by
    rw [ha, show (16 : ℝ) * x = ((16 : ℕ) : ℝ) * x by norm_num, Real.exp_nat_mul]
  exact ⟨by rw [he]; exact pow_le_pow_left₀ hP (expP9_le_exp x h0) 16,
    by rw [he]; exact pow_le_pow_left₀ (Real.exp_pos x).le (exp_le_expP9 x h0 h1) 16⟩

/-- The polynomial exceeds 1 at every positive input. -/
theorem one_lt_expP9 (x : ℝ) (hx : 0 < x) : 1 < expP9 x := by
  unfold expP9
  nlinarith [pow_pos hx 2, pow_pos hx 3, pow_pos hx 4, pow_pos hx 5, pow_pos hx 6,
    pow_pos hx 7, pow_pos hx 8]

/-- Certified rational bounds for a single Planck sample of the 6500 K
blackbody: it suffices to bound the constant prefactor divided by the
sixteenth-power Taylor bounds of the exponential. -/
theorem planck_bound_at (lam x plo phi : ℝ) (hlam : 0 < lam) (hx0 : 0 < x)
    (hx1 : x ≤ 1) (ha : (1.4388e-2 : ℝ) / (lam * 1e-9 * 6500) = 16 * x)
    (hlo : plo ≤ 3.74183e-16 * (lam * 1e-9) ^ (-5 : ℤ) /
      ((expP9 x + x ^ 9 * 10 / 3265920) ^ 16 - 1))
    (hhi : 3.74183e-16 * (lam * 1e-9) ^ (-5 : ℤ) / (expP9 x ^ 16 - 1) ≤ phi) :
    plo ≤ planck_value 6500 lam ∧ planck_value 6500 lam ≤ phi := by
  have hb := exp16_bounds x ((1.4388e-2 : ℝ) / (lam * 1e-9 * 6500)) hx0.le hx1 ha
  have hL1 : 1 < expP9 x ^ 16 := one_lt_pow₀ (one_lt_expP9 x hx0) (by norm_num)
  have hE : planck_value 6500 lam =
      3.74183e-16 * (lam * 1e-9) ^ (-5 : ℤ) /
        (Real.exp (1.4388e-2 / (lam * 1e-9 * 6500)) - 1.0) := rfl
  have hone : (1.0 : ℝ) = 1 := by norm_num
  have hd1 : (0 : ℝ) < expP9 x ^ 16 - 1 := by linarith
  have hd2 : (0 : ℝ) < Real.exp (1.4388e-2 / (lam * 1e-9 * 6500)) - 1.0 := by
    rw [hone]
    linarith [hb.1]
  have hd3 : (0 : ℝ) < (expP9 x + x ^ 9 * 10 / 3265920) ^ 16 - 1 := by
    linarith [hb.1, hb.2]
  have hK : (0 : ℝ) ≤ 3.74183e-16 * (lam * 1e-9) ^ (-5 : ℤ) := by positivity
  constructor
  · calc plo ≤ 3.74183e-16 * (lam * 1e-9) ^ (-5 : ℤ) /
          ((expP9 x + x ^ 9 * 10 / 3265920) ^ 16 - 1) := hlo
      _ ≤ planck_value 6500 lam := by
          rw [hE]
          gcongr <;> linarith [hb.1, hb.2]
  · calc planck_value 6500 lam ≤
        3.74183e-16 * (lam * 1e-9) ^ (-5 : ℤ) / (expP9 x ^ 16 - 1) := by
          rw [hE]
          gcongr <;> linarith [hb.1, hb.2]
      _ ≤ phi := hhi

/-- Certified bounds on the Planck sample at 380 nm (index 0). -/
theorem pb0 : (139843056889989 : ℝ) ≤ me6500 0 ∧ me6500 0 ≤ 139843057426500 := by
  have hcast : ((380 + 0 * 5 : ℕ) : ℝ) = 380 := by norm_num
  unfold me6500
  rw [hcast]
  exact planck_bound_at 380 (3597 / 9880) _ _ (by norm_num) (by norm_num)
    (by norm_num) (by norm_num) (by norm_num [expP9]) (by norm_num [expP9])

/-- Certified bounds on the Planck sample at 385 nm (index 1). -/
theorem pb1 : (141322394733367 : ℝ) ≤ me6500 1 ∧ me6500 1 ≤ 141322395217772 := by
  have hcast : ((380 + 1 * 5 : ℕ) : ℝ) = 385 := by norm_num
  unfold me6500
  rw [hcast]
  exact planck_bound_at 385 (3597 / 10010) _ _ (by norm_num) (by norm_num)
    (by norm_num) (by norm_num) (by norm_num [expP9]) (by norm_num [expP9])

/-- Certified bounds on the Planck sample at 390 nm (index 2). -/
theorem pb2 : (142662551036189 : ℝ) ≤ me6500 2 ∧ me6500 2 ≤ 142662551473691 := by
  have hcast : ((380 + 2 * 5 : ℕ) : ℝ) = 390 := by norm_num
  unfold me6500
  rw [hcast]
  exact planck_bound_at 390 (3597 / 10140) _ _ (by norm_num) (by norm_num)
    (by norm_num) (by norm_num) (by norm_num [expP9]) (by norm_num [expP9])

/-- Certified bounds on the Planck sample at 395 nm (index 3). -/
theorem pb3 : (143866818966495 : ℝ) ≤ me6500 3 ∧ me6500 3 ≤ 143866819361770 := by
  have hcast : ((380 + 3 * 5 : ℕ) : ℝ) = 395 := by norm_num
  unfold me6500
  rw [hcast]
  exact planck_bound_at 395 (3597 / 10270) _ _ (by norm_num) (by norm_num)
    (by norm_num) (by norm_num) (by norm_num [expP9]) (by norm_num [expP9])

/-- Certified bounds on the Planck sample at 400 nm (index 4). -/
theorem pb4 : (144938726519460 : ℝ) ≤ me6500 4 ∧ me6500 4 ≤ 144938726876713 := by
  have hcast : ((380 + 4 * 5 : ℕ) : ℝ) = 400 := by norm_num
  unfold me6500
  rw [hcast]
  exact planck_bound_at 400 (3597 / 10400) _ _ (by norm_num) (by norm_num)
    (by norm_num) (by norm_num) (by norm_num [expP9]) (by norm_num [expP9])

/-- Certified bounds on the Planck sample at 405 nm (index 5). -/
theorem pb5 : (145881997615661 : ℝ) ≤ me6500 5 ∧ me6500 5 ≤ 145881997938670 := by
  have hcast : ((380 + 5 * 5 : ℕ) : ℝ) = 405 := by norm_num
  unfold me6500
  rw [hcast]
  exact planck_bound_at 405 (3597 / 10530) _ _ (by norm_num) (by norm_num)
    (by norm_num) (by norm_num) (by norm_num [expP9]) (by norm_num [expP9])

/-- Certified bounds on the Planck sample at 410 nm (index 6). -/
theorem pb6 : (146700516246067 : ℝ) ≤ me6500 6 ∧ me6500 6 ≤ 146700516538227 := by
  have hcast : ((380 + 6 * 5 : ℕ) : ℝ) = 410 := by norm_num
  unfold me6500
  rw [hcast]
  exact planck_bound_at 410 (3597 / 10660) _ _ (by norm_num) (by norm_num)
    (by norm_num) (by norm_num) (by norm_num [expP9]) (by norm_num [expP9])

/-- Certified bounds on the Planck sample at 415 nm (index 7). -/
theorem pb7 : (147398293574544 : ℝ) ≤ me6500 7 ∧ me6500 7 ≤ 147398293838907 := by
  have hcast : ((380 + 7 * 5 : ℕ) : ℝ) = 415 := by norm_num
  unfold me6500
  rw [hcast]
  exact planck_bound_at 415 (3597 / 10790) _ _ (by norm_num) (by norm_num)
    (by norm_num) (by norm_num) (by norm_num [expP9]) (by norm_num [expP9])

/-- Certified bounds on the Planck sample at 420 nm (index 8). -/
theorem pb8 : (147979437889445 : ℝ) ≤ me6500 8 ∧ me6500 8 ≤ 147979438128755 := by
  have hcast : ((380 + 8 * 5 : ℕ) : ℝ) = 420 := by norm_num
  unfold me6500
  rw [hcast]
  exact planck_bound_at 420 (3597 / 10920) _ _ (by norm_num) (by norm_num)
    (by norm_num) (by norm_num) (by norm_num [expP9]) (by norm_num [expP9])

/-- Certified bounds on the Planck sample at 425 nm (index 9). -/
theorem pb9 : (148448127281473 : ℝ) ≤ me6500 9 ∧ me6500 9 ≤ 148448127498196 := by
  have hcast : ((380 + 9 * 5 : ℕ) : ℝ) = 425 := by norm_num
  unfold me6500
  rw [hcast]
  exact planck_bound_at 425 (3597 / 11050) _ _ (by norm_num) (by norm_num)
    (by norm_num) (by norm_num) (by norm_num [expP9]) (by norm_num [expP9])

/-- Certified bounds on the Planck sample at 430 nm (index 10). -/
theorem pb10 : (148808584914737 : ℝ) ≤ me6500 10 ∧ me6500 10 ≤ 148808585111089 := by
  have hcast : ((380 + 10 * 5 : ℕ) : ℝ) = 430 := by norm_num
  unfold me6500
  rw [hcast]
  exact planck_bound_at 430 (3597 / 11180) _ _ (by norm_num) (by norm_num)
    (by norm_num) (by norm_num) (by norm_num [expP9]) (by norm_num [expP9])

/-- Certified bounds on the Planck sample at 435 nm (index 11). -/
theorem pb11 : (149065056751187 : ℝ) ≤ me6500 11 ∧ me6500 11 ≤ 149065056929162 := by
  have hcast : ((380 + 11 * 5 : ℕ) : ℝ) = 435 := by norm_num
  unfold me6500
  rw [hcast]
  exact planck_bound_at 435 (3597 / 11310) _ _ (by norm_num) (by norm_num)
    (by norm_num) (by norm_num) (by norm_num [expP9]) (by norm_num [expP9])

/-- Certified bounds on the Planck sample at 440 nm (index 12). -/
theorem pb12 : (149221791584770 : ℝ) ≤ me6500 12 ∧ me6500 12 ≤ 149221791746159 := by
  have hcast : ((380 + 12 * 5 : ℕ) : ℝ) = 440 := by norm_num
  unfold me6500
  rw [hcast]
  exact planck_bound_at 440 (3597 / 11440) _ _ (by norm_num) (by norm_num)
    (by norm_num) (by norm_num) (by norm_num [expP9]) (by norm_num [expP9])

/-- Certified bounds on the Planck sample at 445 nm (index 13). -/
theorem pb13 : (149283023240259 : ℝ) ≤ me6500 13 ∧ me6500 13 ≤ 149283023386675 := by
  have hcast : ((380 + 13 * 5 : ℕ) : ℝ) = 445 := by norm_num
  unfold me6500
  rw [hcast]
  exact planck_bound_at 445 (3597 / 11570) _ _ (by norm_num) (by norm_num)
    (by norm_num) (by norm_num) (by norm_num [expP9]) (by norm_num [expP9])

/-- Certified bounds on the Planck sample at 450 nm (index 14). -/
theorem pb14 : (149252954792305 : ℝ) ≤ me6500 14 ∧ me6500 14 ≤ 149252954925197 := by
  have hcast : ((380 + 14 * 5 : ℕ) : ℝ) = 450 := by norm_num
  unfold me6500
  rw [hcast]
  exact planck_bound_at 450 (3597 / 11700) _ _ (by norm_num) (by norm_num)
    (by norm_num) (by norm_num) (by norm_num [expP9]) (by norm_num [expP9])

/-- Certified bounds on the Planck sample at 455 nm (index 15). -/
theorem pb15 : (149135744662448 : ℝ) ≤ me6500 15 ∧ me6500 15 ≤ 149135744783121 := by
  have hcast : ((380 + 15 * 5 : ℕ) : ℝ) = 455 := by norm_num
  unfold me6500
  rw [hcast]
  exact planck_bound_at 455 (3597 / 11830) _ _ (by norm_num) (by norm_num)
    (by norm_num) (by norm_num) (by norm_num [expP9]) (by norm_num [expP9])

/-- Certified bounds on the Planck sample at 460 nm (index 16). -/
theorem pb16 : (148935494455346 : ℝ) ≤ me6500 16 ∧ me6500 16 ≤ 148935494564976 := by
  have hcast : ((380 + 16 * 5 : ℕ) : ℝ) = 460 := by norm_num
  unfold me6500
  rw [hcast]
  exact planck_bound_at 460 (3597 / 11960) _ _ (by norm_num) (by norm_num)
    (by norm_num) (by norm_num) (by norm_num [expP9]) (by norm_num [expP9])

/-- Certified bounds on the Planck sample at 465 nm (index 17). -/
theorem pb17 : (148656238399913 : ℝ) ≤ me6500 17 ∧ me6500 17 ≤ 148656238499558 := by
  have hcast : ((380 + 17 * 5 : ℕ) : ℝ) = 465 := by norm_num
  unfold me6500
  rw [hcast]
  exact planck_bound_at 465 (3597 / 12090) _ _ (by norm_num) (by norm_num)
    (by norm_num) (by norm_num) (by norm_num [expP9]) (by norm_num [expP9])

/-- Certified bounds on the Planck sample at 470 nm (index 18). -/
theorem pb18 : (148301934266331 : ℝ) ≤ me6500 18 ∧ me6500 18 ≤ 148301934356942 := by
  have hcast : ((380 + 18 * 5 : ℕ) : ℝ) = 470 := by norm_num
  unfold me6500
  rw [hcast]
  exact planck_bound_at 470 (3597 / 12220) _ _ (by norm_num) (by norm_num)
    (by norm_num) (by norm_num) (by norm_num [expP9]) (by norm_num [expP9])

/-- Certified bounds on the Planck sample at 475 nm (index 19). -/
theorem pb19 : (147876455635646 : ℝ) ≤ me6500 19 ∧ me6500 19 ≤ 147876455718082 := by
  have hcast : ((380 + 19 * 5 : ℕ) : ℝ) = 475 := by norm_num
  unfold me6500
  rw [hcast]
  exact planck_bound_at 475 (3597 / 12350) _ _ (by norm_num) (by norm_num)
    (by norm_num) (by norm_num) (by norm_num [expP9]) (by norm_num [expP9])

/-- Certified bounds on the Planck sample at 480 nm (index 20). -/
theorem pb20 : (147383585404840 : ℝ) ≤ me6500 20 ∧ me6500 20 ≤ 147383585479876 := by
  have hcast : ((380 + 20 * 5 : ℕ) : ℝ) = 480 := by norm_num
  unfold me6500
  rw [hcast]
  exact planck_bound_at 480 (3597 / 12480) _ _ (by norm_num) (by norm_num)
    (by norm_num) (by norm_num) (by norm_num [expP9]) (by norm_num [expP9])

/-- Certified bounds on the Planck sample at 485 nm (index 21). -/
theorem pb21 : (146827010416627 : ℝ) ≤ me6500 21 ∧ me6500 21 ≤ 146827010484959 := by
  have hcast : ((380 + 21 * 5 : ℕ) : ℝ) = 485 := by norm_num
  unfold me6500
  rw [hcast]
  exact planck_bound_at 485 (3597 / 12610) _ _ (by norm_num) (by norm_num)
    (by norm_num) (by norm_num) (by norm_num [expP9]) (by norm_num [expP9])

/-- Certified bounds on the Planck sample at 490 nm (index 22). -/
theorem pb22 : (146210317109703 : ℝ) ≤ me6500 22 ∧ me6500 22 ≤ 146210317171960 := by
  have hcast : ((380 + 22 * 5 : ℕ) : ℝ) = 490 := by norm_num
  unfold me6500
  rw [hcast]
  exact planck_bound_at 490 (3597 / 12740) _ _ (by norm_num) (by norm_num)
    (by norm_num) (by norm_num) (by norm_num [expP9]) (by norm_num [expP9])

/-- Certified bounds on the Planck sample at 495 nm (index 23). -/
theorem pb23 : (145536988091713 : ℝ) ≤ me6500 23 ∧ me6500 23 ≤ 145536988148462 := by
  have hcast : ((380 + 23 * 5 : ℕ) : ℝ) = 495 := by norm_num
  unfold me6500
  rw [hcast]
  exact planck_bound_at 495 (3597 / 12870) _ _ (by norm_num) (by norm_num)
    (by norm_num) (by norm_num) (by norm_num [expP9]) (by norm_num [expP9])

/-- Certified bounds on the Planck sample at 500 nm (index 24). -/
theorem pb24 : (144810399543583 : ℝ) ≤ me6500 24 ∧ me6500 24 ≤ 144810399595338 := by
  have hcast : ((380 + 24 * 5 : ℕ) : ℝ) = 500 := by norm_num
  unfold me6500
  rw [hcast]
  exact planck_bound_at 500 (3597 / 13000) _ _ (by norm_num) (by norm_num)
    (by norm_num) (by norm_num) (by norm_num [expP9]) (by norm_num [expP9])

/-- Certified bounds on the Planck sample at 505 nm (index 25). -/
theorem pb25 : (144033819370188 : ℝ) ≤ me6500 25 ∧ me6500 25 ≤ 144033819417410 := by
  have hcast : ((380 + 25 * 5 : ℕ) : ℝ) = 505 := by norm_num
  unfold me6500
  rw [hcast]
  exact planck_bound_at 505 (3597 / 13130) _ _ (by norm_num) (by norm_num)
    (by norm_num) (by norm_num) (by norm_num [expP9]) (by norm_num [expP9])

/-- Certified bounds on the Planck sample at 510 nm (index 26). -/
theorem pb26 : (143210406018425 : ℝ) ≤ me6500 26 ∧ me6500 26 ≤ 143210406061533 := by
  have hcast : ((380 + 26 * 5 : ℕ) : ℝ) = 510 := by norm_num
  unfold me6500
  rw [hcast]
  exact planck_bound_at 510 (3597 / 13260) _ _ (by norm_num) (by norm_num)
    (by norm_num) (by norm_num) (by norm_num [expP9]) (by norm_num [expP9])

/-- Certified bounds on the Planck sample at 515 nm (index 27). -/
theorem pb27 : (142343207889682 : ℝ) ≤ me6500 27 ∧ me6500 27 ≤ 142343207929053 := by
  have hcast : ((380 + 27 * 5 : ℕ) : ℝ) = 515 := by norm_num
  unfold me6500
  rw [hcast]
  exact planck_bound_at 515 (3597 / 13390) _ _ (by norm_num) (by norm_num)
    (by norm_num) (by norm_num) (by norm_num [expP9]) (by norm_num [expP9])

/-- Certified bounds on the Planck sample at 520 nm (index 28). -/
theorem pb28 : (141435163279303 : ℝ) ≤ me6500 28 ∧ me6500 28 ≤ 141435163315279 := by
  have hcast : ((380 + 28 * 5 : ℕ) : ℝ) = 520 := by norm_num
  unfold me6500
  rw [hcast]
  exact planck_bound_at 520 (3597 / 13520) _ _ (by norm_num) (by norm_num)
    (by norm_num) (by norm_num) (by norm_num [expP9]) (by norm_num [expP9])

/-- Certified bounds on the Planck sample at 525 nm (index 29). -/
theorem pb29 : (140489100781073 : ℝ) ≤ me6500 29 ∧ me6500 29 ≤ 140489100813962 := by
  have hcast : ((380 + 29 * 5 : ℕ) : ℝ) = 525 := by norm_num
  unfold me6500
  rw [hcast]
  exact planck_bound_at 525 (3597 / 13650) _ _ (by norm_num) (by norm_num)
    (by norm_num) (by norm_num) (by norm_num [expP9]) (by norm_num [expP9])

/-- Certified bounds on the Planck sample at 530 nm (index 30). -/
theorem pb30 : (139507740099829 : ℝ) ≤ me6500 30 ∧ me6500 30 ≤ 139507740129911 := by
  have hcast : ((380 + 30 * 5 : ℕ) : ℝ) = 530 := by norm_num
  unfold me6500
  rw [hcast]
  exact planck_bound_at 530 (3597 / 13780) _ _ (by norm_num) (by norm_num)
    (by norm_num) (by norm_num) (by norm_num [expP9]) (by norm_num [expP9])

/-- Certified bounds on the Planck sample at 535 nm (index 31). -/
theorem pb31 : (138493693220135 : ℝ) ≤ me6500 31 ∧ me6500 31 ≤ 138493693247662 := by
  have hcast : ((380 + 31 * 5 : ℕ) : ℝ) = 535 := by norm_num
  unfold me6500
  rw [hcast]
  exact planck_bound_at 535 (3597 / 13910) _ _ (by norm_num) (by norm_num)
    (by norm_num) (by norm_num) (by norm_num [expP9]) (by norm_num [expP9])

/-- Certified bounds on the Planck sample at 540 nm (index 32). -/
theorem pb32 : (137449465883489 : ℝ) ≤ me6500 32 ∧ me6500 32 ≤ 137449465908691 := by
  have hcast : ((380 + 32 * 5 : ℕ) : ℝ) = 540 := by norm_num
  unfold me6500
  rw [hcast]
  exact planck_bound_at 540 (3597 / 14040) _ _ (by norm_num) (by norm_num)
    (by norm_num) (by norm_num) (by norm_num [expP9]) (by norm_num [expP9])

/-- Certified bounds on the Planck sample at 545 nm (index 33). -/
theorem pb33 : (136377459330791 : ℝ) ≤ me6500 33 ∧ me6500 33 ≤ 136377459353875 := by
  have hcast : ((380 + 33 * 5 : ℕ) : ℝ) = 545 := by norm_num
  unfold me6500
  rw [hcast]
  exact planck_bound_at 545 (3597 / 14170) _ _ (by norm_num) (by norm_num)
    (by norm_num) (by norm_num) (by norm_num [expP9]) (by norm_num [expP9])

/-- Certified bounds on the Planck sample at 550 nm (index 34). -/
theorem pb34 : (135279972270761 : ℝ) ≤ me6500 34 ∧ me6500 34 ≤ 135279972291915 := by
  have hcast : ((380 + 34 * 5 : ℕ) : ℝ) = 550 := by norm_num
  unfold me6500
  rw [hcast]
  exact planck_bound_at 550 (3597 / 14300) _ _ (by norm_num) (by norm_num)
    (by norm_num) (by norm_num) (by norm_num [expP9]) (by norm_num [expP9])

/-- Certified bounds on the Planck sample at 555 nm (index 35). -/
theorem pb35 : (134159203038703 : ℝ) ≤ me6500 35 ∧ me6500 35 ≤ 134159203058098 := by
  have hcast : ((380 + 35 * 5 : ℕ) : ℝ) = 555 := by norm_num
  unfold me6500
  rw [hcast]
  exact planck_bound_at 555 (3597 / 14430) _ _ (by norm_num) (by norm_num)
    (by norm_num) (by norm_num) (by norm_num [expP9]) (by norm_num [expP9])

/-- Certified bounds on the Planck sample at 560 nm (index 36). -/
theorem pb36 : (133017251913452 : ℝ) ≤ me6500 36 ∧ me6500 36 ≤ 133017251931242 := by
  have hcast : ((380 + 36 * 5 : ℕ) : ℝ) = 560 := by norm_num
  unfold me6500
  rw [hcast]
  exact planck_bound_at 560 (3597 / 14560) _ _ (by norm_num) (by norm_num)
    (by norm_num) (by norm_num) (by norm_num [expP9]) (by norm_num [expP9])

/-- Certified bounds on the Planck sample at 565 nm (index 37). -/
theorem pb37 : (131856123563514 : ℝ) ≤ me6500 37 ∧ me6500 37 ≤ 131856123579841 := by
  have hcast : ((380 + 37 * 5 : ℕ) : ℝ) = 565 := by norm_num
  unfold me6500
  rw [hcast]
  exact planck_bound_at 565 (3597 / 14690) _ _ (by norm_num) (by norm_num)
    (by norm_num) (by norm_num) (by norm_num [expP9]) (by norm_num [expP9])

/-- Certified bounds on the Planck sample at 570 nm (index 38). -/
theorem pb38 : (130677729596359 : ℝ) ≤ me6500 38 ∧ me6500 38 ≤ 130677729611349 := by
  have hcast : ((380 + 38 * 5 : ℕ) : ℝ) = 570 := by norm_num
  unfold me6500
  rw [hcast]
  exact planck_bound_at 570 (3597 / 14820) _ _ (by norm_num) (by norm_num)
    (by norm_num) (by norm_num) (by norm_num [expP9]) (by norm_num [expP9])

/-- Certified bounds on the Planck sample at 575 nm (index 39). -/
theorem pb39 : (129483891187536 : ℝ) ≤ me6500 39 ∧ me6500 39 ≤ 129483891201305 := by
  have hcast : ((380 + 39 * 5 : ℕ) : ℝ) = 575 := by norm_num
  unfold me6500
  rw [hcast]
  exact planck_bound_at 575 (3597 / 14950) _ _ (by norm_num) (by norm_num)
    (by norm_num) (by norm_num) (by norm_num [expP9]) (by norm_num [expP9])

/-- Certified bounds on the Planck sample at 580 nm (index 40). -/
theorem pb40 : (128276341768780 : ℝ) ≤ me6500 40 ∧ me6500 40 ≤ 128276341781433 := by
  have hcast : ((380 + 40 * 5 : ℕ) : ℝ) = 580 := by norm_num
  unfold me6500
  rw [hcast]
  exact planck_bound_at 580 (3597 / 15080) _ _ (by norm_num) (by norm_num)
    (by norm_num) (by norm_num) (by norm_num [expP9]) (by norm_num [expP9])

/-- Certified bounds on the Planck sample at 585 nm (index 41). -/
theorem pb41 : (127056729756567 : ℝ) ≤ me6500 41 ∧ me6500 41 ≤ 127056729768201 := by
  have hcast : ((380 + 41 * 5 : ℕ) : ℝ) = 585 := by norm_num
  unfold me6500
  rw [hcast]
  exact planck_bound_at 585 (3597 / 15210) _ _ (by norm_num) (by norm_num)
    (by norm_num) (by norm_num) (by norm_num [expP9]) (by norm_num [expP9])

/-- Certified bounds on the Planck sample at 590 nm (index 42). -/
theorem pb42 : (125826621304672 : ℝ) ≤ me6500 42 ∧ me6500 42 ≤ 125826621315373 := by
  have hcast : ((380 + 42 * 5 : ℕ) : ℝ) = 590 := by norm_num
  unfold me6500
  rw [hcast]
  exact planck_bound_at 590 (3597 / 15340) _ _ (by norm_num) (by norm_num)
    (by norm_num) (by norm_num) (by norm_num [expP9]) (by norm_num [expP9])

/-- Certified bounds on the Planck sample at 595 nm (index 43). -/
theorem pb43 : (124587503066197 : ℝ) ≤ me6500 43 ∧ me6500 43 ≤ 124587503076045 := by
  have hcast : ((380 + 43 * 5 : ℕ) : ℝ) = 595 := by norm_num
  unfold me6500
  rw [hcast]
  exact planck_bound_at 595 (3597 / 15470) _ _ (by norm_num) (by norm_num)
    (by norm_num) (by norm_num) (by norm_num [expP9]) (by norm_num [expP9])

/-- Certified bounds on the Planck sample at 600 nm (index 44). -/
theorem pb44 : (123340784952309 : ℝ) ≤ me6500 44 ∧ me6500 44 ≤ 123340784961376 := by
  have hcast : ((380 + 44 * 5 : ℕ) : ℝ) = 600 := by norm_num
  unfold me6500
  rw [hcast]
  exact planck_bound_at 600 (3597 / 15600) _ _ (by norm_num) (by norm_num)
    (by norm_num) (by norm_num) (by norm_num [expP9]) (by norm_num [expP9])

/-- Certified bounds on the Planck sample at 605 nm (index 45). -/
theorem pb45 : (122087802876483 : ℝ) ≤ me6500 45 ∧ me6500 45 ≤ 122087802884834 := by
  have hcast : ((380 + 45 * 5 : ℕ) : ℝ) = 605 := by norm_num
  unfold me6500
  rw [hcast]
  exact planck_bound_at 605 (3597 / 15730) _ _ (by norm_num) (by norm_num)
    (by norm_num) (by norm_num) (by norm_num [expP9]) (by norm_num [expP9])

/-- Certified bounds on the Planck sample at 610 nm (index 46). -/
theorem pb46 : (120829821474529 : ℝ) ≤ me6500 46 ∧ me6500 46 ≤ 120829821482225 := by
  have hcast : ((380 + 46 * 5 : ℕ) : ℝ) = 610 := by norm_num
  unfold me6500
  rw [hcast]
  exact planck_bound_at 610 (3597 / 15860) _ _ (by norm_num) (by norm_num)
    (by norm_num) (by norm_num) (by norm_num [expP9]) (by norm_num [expP9])

/-- Certified bounds on the Planck sample at 615 nm (index 47). -/
theorem pb47 : (119568036791978 : ℝ) ≤ me6500 47 ∧ me6500 47 ≤ 119568036799073 := by
  have hcast : ((380 + 47 * 5 : ℕ) : ℝ) = 615 := by norm_num
  unfold me6500
  rw [hcast]
  exact planck_bound_at 615 (3597 / 15990) _ _ (by norm_num) (by norm_num)
    (by norm_num) (by norm_num) (by norm_num [expP9]) (by norm_num [expP9])

/-- Certified bounds on the Planck sample at 620 nm (index 48). -/
theorem pb48 : (118303578931577 : ℝ) ≤ me6500 48 ∧ me6500 48 ≤ 118303578938121 := by
  have hcast : ((380 + 48 * 5 : ℕ) : ℝ) = 620 := by norm_num
  unfold me6500
  rw [hcast]
  exact planck_bound_at 620 (3597 / 16120) _ _ (by norm_num) (by norm_num)
    (by norm_num) (by norm_num) (by norm_num [expP9]) (by norm_num [expP9])

/-- Certified bounds on the Planck sample at 625 nm (index 49). -/
theorem pb49 : (117037514654746 : ℝ) ≤ me6500 49 ∧ me6500 49 ≤ 117037514660785 := by
  have hcast : ((380 + 49 * 5 : ℕ) : ℝ) = 625 := by norm_num
  unfold me6500
  rw [hcast]
  exact planck_bound_at 625 (3597 / 16250) _ _ (by norm_num) (by norm_num)
    (by norm_num) (by norm_num) (by norm_num [expP9]) (by norm_num [expP9])

/-- Certified bounds on the Planck sample at 630 nm (index 50). -/
theorem pb50 : (115770849931795 : ℝ) ≤ me6500 50 ∧ me6500 50 ≤ 115770849937370 := by
  have hcast : ((380 + 50 * 5 : ℕ) : ℝ) = 630 := by norm_num
  unfold me6500
  rw [hcast]
  exact planck_bound_at 630 (3597 / 16380) _ _ (by norm_num) (by norm_num)
    (by norm_num) (by norm_num) (by norm_num [expP9]) (by norm_num [expP9])

/-- Certified bounds on the Planck sample at 635 nm (index 51). -/
theorem pb51 : (114504532436561 : ℝ) ≤ me6500 51 ∧ me6500 51 ≤ 114504532441709 := by
  have hcast : ((380 + 51 * 5 : ℕ) : ℝ) = 635 := by norm_num
  unfold me6500
  rw [hcast]
  exact planck_bound_at 635 (3597 / 16510) _ _ (by norm_num) (by norm_num)
    (by norm_num) (by norm_num) (by norm_num [expP9]) (by norm_num [expP9])

/-- Certified bounds on the Planck sample at 640 nm (index 52). -/
theorem pb52 : (113239453981933 : ℝ) ≤ me6500 52 ∧ me6500 52 ≤ 113239453986689 := by
  have hcast : ((380 + 52 * 5 : ℕ) : ℝ) = 640 := by norm_num
  unfold me6500
  rw [hcast]
  exact planck_bound_at 640 (3597 / 16640) _ _ (by norm_num) (by norm_num)
    (by norm_num) (by norm_num) (by norm_num [expP9]) (by norm_num [expP9])

/-- Certified bounds on the Planck sample at 645 nm (index 53). -/
theorem pb53 : (111976452893399 : ℝ) ≤ me6500 53 ∧ me6500 53 ≤ 111976452897796 := by
  have hcast : ((380 + 53 * 5 : ℕ) : ℝ) = 645 := by norm_num
  unfold me6500
  rw [hcast]
  exact planck_bound_at 645 (3597 / 16770) _ _ (by norm_num) (by norm_num)
    (by norm_num) (by norm_num) (by norm_num [expP9]) (by norm_num [expP9])

/-- Certified bounds on the Planck sample at 650 nm (index 54). -/
theorem pb54 : (110716316318399 : ℝ) ≤ me6500 54 ∧ me6500 54 ≤ 110716316322465 := by
  have hcast : ((380 + 54 * 5 : ℕ) : ℝ) = 650 := by norm_num
  unfold me6500
  rw [hcast]
  exact planck_bound_at 650 (3597 / 16900) _ _ (by norm_num) (by norm_num)
    (by norm_num) (by norm_num) (by norm_num [expP9]) (by norm_num [expP9])

/-- Certified bounds on the Planck sample at 655 nm (index 55). -/
theorem pb55 : (109459782469790 : ℝ) ≤ me6500 55 ∧ me6500 55 ≤ 109459782473551 := by
  have hcast : ((380 + 55 * 5 : ℕ) : ℝ) = 655 := by norm_num
  unfold me6500
  rw [hcast]
  exact planck_bound_at 655 (3597 / 17030) _ _ (by norm_num) (by norm_num)
    (by norm_num) (by norm_num) (by norm_num [expP9]) (by norm_num [expP9])

/-- Certified bounds on the Planck sample at 660 nm (index 56). -/
theorem pb56 : (108207542802255 : ℝ) ≤ me6500 56 ∧ me6500 56 ≤ 108207542805736 := by
  have hcast : ((380 + 56 * 5 : ℕ) : ℝ) = 660 := by norm_num
  unfold me6500
  rw [hcast]
  exact planck_bound_at 660 (3597 / 17160) _ _ (by norm_num) (by norm_num)
    (by norm_num) (by norm_num) (by norm_num [expP9]) (by norm_num [expP9])

/-- Certified bounds on the Planck sample at 665 nm (index 57). -/
theorem pb57 : (106960244120899 : ℝ) ≤ me6500 57 ∧ me6500 57 ≤ 106960244124123 := by
  have hcast : ((380 + 57 * 5 : ℕ) : ℝ) = 665 := by norm_num
  unfold me6500
  rw [hcast]
  exact planck_bound_at 665 (3597 / 17290) _ _ (by norm_num) (by norm_num)
    (by norm_num) (by norm_num) (by norm_num [expP9]) (by norm_num [expP9])

/-- Certified bounds on the Planck sample at 670 nm (index 58). -/
theorem pb58 : (105718490621663 : ℝ) ≤ me6500 58 ∧ me6500 58 ≤ 105718490624648 := by
  have hcast : ((380 + 58 * 5 : ℕ) : ℝ) = 670 := by norm_num
  unfold me6500
  rw [hcast]
  exact planck_bound_at 670 (3597 / 17420) _ _ (by norm_num) (by norm_num)
    (by norm_num) (by norm_num) (by norm_num [expP9]) (by norm_num [expP9])

/-- Certified bounds on the Planck sample at 675 nm (index 59). -/
theorem pb59 : (104482845863523 : ℝ) ≤ me6500 59 ∧ me6500 59 ≤ 104482845866289 := by
  have hcast : ((380 + 59 * 5 : ℕ) : ℝ) = 675 := by norm_num
  unfold me6500
  rw [hcast]
  exact planck_bound_at 675 (3597 / 17550) _ _ (by norm_num) (by norm_num)
    (by norm_num) (by norm_num) (by norm_num [expP9]) (by norm_num [expP9])

/-- Certified bounds on the Planck sample at 680 nm (index 60). -/
theorem pb60 : (103253834672745 : ℝ) ≤ me6500 60 ∧ me6500 60 ≤ 103253834675310 := by
  have hcast : ((380 + 60 * 5 : ℕ) : ℝ) = 680 := by norm_num
  unfold me6500
  rw [hcast]
  exact planck_bound_at 680 (3597 / 17680) _ _ (by norm_num) (by norm_num)
    (by norm_num) (by norm_num) (by norm_num [expP9]) (by norm_num [expP9])

/-- Certified bounds on the Planck sample at 685 nm (index 61). -/
theorem pb61 : (102031944979705 : ℝ) ≤ me6500 61 ∧ me6500 61 ≤ 102031944982083 := by
  have hcast : ((380 + 61 * 5 : ℕ) : ℝ) = 685 := by norm_num
  unfold me6500
  rw [hcast]
  exact planck_bound_at 685 (3597 / 17810) _ _ (by norm_num) (by norm_num)
    (by norm_num) (by norm_num) (by norm_num [expP9]) (by norm_num [expP9])

/-- Certified bounds on the Planck sample at 690 nm (index 62). -/
theorem pb62 : (100817629589006 : ℝ) ≤ me6500 62 ∧ me6500 62 ≤ 100817629591213 := by
  have hcast : ((380 + 62 * 5 : ℕ) : ℝ) = 690 := by norm_num
  unfold me6500
  rw [hcast]
  exact planck_bound_at 690 (3597 / 17940) _ _ (by norm_num) (by norm_num)
    (by norm_num) (by norm_num) (by norm_num [expP9]) (by norm_num [expP9])

/-- Certified bounds on the Planck sample at 695 nm (index 63). -/
theorem pb63 : (99611307883838 : ℝ) ≤ me6500 63 ∧ me6500 63 ≤ 99611307885886 := by
  have hcast : ((380 + 63 * 5 : ℕ) : ℝ) = 695 := by norm_num
  unfold me6500
  rw [hcast]
  exact planck_bound_at 695 (3597 / 18070) _ _ (by norm_num) (by norm_num)
    (by norm_num) (by norm_num) (by norm_num [expP9]) (by norm_num [expP9])

/-- Certified bounds on the Planck sample at 700 nm (index 64). -/
theorem pb64 : (98413367465638 : ℝ) ≤ me6500 64 ∧ me6500 64 ≤ 98413367467539 := by
  have hcast : ((380 + 64 * 5 : ℕ) : ℝ) = 700 := by norm_num
  unfold me6500
  rw [hcast]
  exact planck_bound_at 700 (3597 / 18200) _ _ (by norm_num) (by norm_num)
    (by norm_num) (by norm_num) (by norm_num [expP9]) (by norm_num [expP9])

/-- Certified bounds on the Planck sample at 705 nm (index 65). -/
theorem pb65 : (97224165730308 : ℝ) ≤ me6500 65 ∧ me6500 65 ≤ 97224165732075 := by
  have hcast : ((380 + 65 * 5 : ℕ) : ℝ) = 705 := by norm_num
  unfold me6500
  rw [hcast]
  exact planck_bound_at 705 (3597 / 18330) _ _ (by norm_num) (by norm_num)
    (by norm_num) (by norm_num) (by norm_num [expP9]) (by norm_num [expP9])

/-- Certified bounds on the Planck sample at 710 nm (index 66). -/
theorem pb66 : (96044031382298 : ℝ) ≤ me6500 66 ∧ me6500 66 ≤ 96044031383940 := by
  have hcast : ((380 + 66 * 5 : ℕ) : ℝ) = 710 := by norm_num
  unfold me6500
  rw [hcast]
  exact planck_bound_at 710 (3597 / 18460) _ _ (by norm_num) (by norm_num)
    (by norm_num) (by norm_num) (by norm_num [expP9]) (by norm_num [expP9])

/-- Certified bounds on the Planck sample at 715 nm (index 67). -/
theorem pb67 : (94873265887998 : ℝ) ≤ me6500 67 ∧ me6500 67 ≤ 94873265889524 := by
  have hcast : ((380 + 67 * 5 : ℕ) : ℝ) = 715 := by norm_num
  unfold me6500
  rw [hcast]
  exact planck_bound_at 715 (3597 / 18590) _ _ (by norm_num) (by norm_num)
    (by norm_num) (by norm_num) (by norm_num [expP9]) (by norm_num [expP9])

/-- Certified bounds on the Planck sample at 720 nm (index 68). -/
theorem pb68 : (93712144869937 : ℝ) ≤ me6500 68 ∧ me6500 68 ≤ 93712144871356 := by
  have hcast : ((380 + 68 * 5 : ℕ) : ℝ) = 720 := by norm_num
  unfold me6500
  rw [hcast]
  exact planck_bound_at 720 (3597 / 18720) _ _ (by norm_num) (by norm_num)
    (by norm_num) (by norm_num) (by norm_num [expP9]) (by norm_num [expP9])

/-- Certified bounds on the Planck sample at 725 nm (index 69). -/
theorem pb69 : (92560919443360 : ℝ) ≤ me6500 69 ∧ me6500 69 ≤ 92560919444680 := by
  have hcast : ((380 + 69 * 5 : ℕ) : ℝ) = 725 := by norm_num
  unfold me6500
  rw [hcast]
  exact planck_bound_at 725 (3597 / 18850) _ _ (by norm_num) (by norm_num)
    (by norm_num) (by norm_num) (by norm_num [expP9]) (by norm_num [expP9])

/-- Certified bounds on the Planck sample at 730 nm (index 70). -/
theorem pb70 : (91419817496780 : ℝ) ≤ me6500 70 ∧ me6500 70 ≤ 91419817498009 := by
  have hcast : ((380 + 70 * 5 : ℕ) : ℝ) = 730 := by norm_num
  unfold me6500
  rw [hcast]
  exact planck_bound_at 730 (3597 / 18980) _ _ (by norm_num) (by norm_num)
    (by norm_num) (by norm_num) (by norm_num [expP9]) (by norm_num [expP9])

/-- Certified bounds on the Planck sample at 735 nm (index 71). -/
theorem pb71 : (90289044918149 : ℝ) ≤ me6500 71 ∧ me6500 71 ≤ 90289044919293 := by
  have hcast : ((380 + 71 * 5 : ℕ) : ℝ) = 735 := by norm_num
  unfold me6500
  rw [hcast]
  exact planck_bound_at 735 (3597 / 19110) _ _ (by norm_num) (by norm_num)
    (by norm_num) (by norm_num) (by norm_num [expP9]) (by norm_num [expP9])

/-- Certified bounds on the Planck sample at 740 nm (index 72). -/
theorem pb72 : (89168786768310 : ℝ) ≤ me6500 72 ∧ me6500 72 ≤ 89168786769376 := by
  have hcast : ((380 + 72 * 5 : ℕ) : ℝ) = 740 := by norm_num
  unfold me6500
  rw [hcast]
  exact planck_bound_at 740 (3597 / 19240) _ _ (by norm_num) (by norm_num)
    (by norm_num) (by norm_num) (by norm_num [expP9]) (by norm_num [expP9])

/-- Certified bounds on the Planck sample at 745 nm (index 73). -/
theorem pb73 : (88059208403399 : ℝ) ≤ me6500 73 ∧ me6500 73 ≤ 88059208404392 := by
  have hcast : ((380 + 73 * 5 : ℕ) : ℝ) = 745 := by norm_num
  unfold me6500
  rw [hcast]
  exact planck_bound_at 745 (3597 / 19370) _ _ (by norm_num) (by norm_num)
    (by norm_num) (by norm_num) (by norm_num [expP9]) (by norm_num [expP9])

/-- Certified bounds on the Planck sample at 750 nm (index 74). -/
theorem pb74 : (86960456547870 : ℝ) ≤ me6500 74 ∧ me6500 74 ≤ 86960456548796 := by
  have hcast : ((380 + 74 * 5 : ℕ) : ℝ) = 750 := by norm_num
  unfold me6500
  rw [hcast]
  exact planck_bound_at 750 (3597 / 19500) _ _ (by norm_num) (by norm_num)
    (by norm_num) (by norm_num) (by norm_num [expP9]) (by norm_num [expP9])

/-- Certified bounds on the Planck sample at 755 nm (index 75). -/
theorem pb75 : (85872660319815 : ℝ) ≤ me6500 75 ∧ me6500 75 ≤ 85872660320678 := by
  have hcast : ((380 + 75 * 5 : ℕ) : ℝ) = 755 := by norm_num
  unfold me6500
  rw [hcast]
  exact planck_bound_at 755 (3597 / 19630) _ _ (by norm_num) (by norm_num)
    (by norm_num) (by norm_num) (by norm_num [expP9]) (by norm_num [expP9])

/-- Certified bounds on the Planck sample at 760 nm (index 76). -/
theorem pb76 : (84795932210231 : ℝ) ≤ me6500 76 ∧ me6500 76 ≤ 84795932211035 := by
  have hcast : ((380 + 76 * 5 : ℕ) : ℝ) = 760 := by norm_num
  unfold me6500
  rw [hcast]
  exact planck_bound_at 760 (3597 / 19760) _ _ (by norm_num) (by norm_num)
    (by norm_num) (by norm_num) (by norm_num [expP9]) (by norm_num [expP9])

/-- Certified bounds on the Planck sample at 765 nm (index 77). -/
theorem pb77 : (83730369017878 : ℝ) ≤ me6500 77 ∧ me6500 77 ≤ 83730369018629 := by
  have hcast : ((380 + 77 * 5 : ℕ) : ℝ) = 765 := by norm_num
  unfold me6500
  rw [hcast]
  exact planck_bound_at 765 (3597 / 19890) _ _ (by norm_num) (by norm_num)
    (by norm_num) (by norm_num) (by norm_num [expP9]) (by norm_num [expP9])

/-- Certified bounds on the Planck sample at 770 nm (index 78). -/
theorem pb78 : (82676052741347 : ℝ) ≤ me6500 78 ∧ me6500 78 ≤ 82676052742047 := by
  have hcast : ((380 + 78 * 5 : ℕ) : ℝ) = 770 := by norm_num
  unfold me6500
  rw [hcast]
  exact planck_bound_at 770 (3597 / 20020) _ _ (by norm_num) (by norm_num)
    (by norm_num) (by norm_num) (by norm_num [expP9]) (by norm_num [expP9])

/-- Certified bounds on the Planck sample at 775 nm (index 79). -/
theorem pb79 : (81633051429925 : ℝ) ≤ me6500 79 ∧ me6500 79 ≤ 81633051430579 := by
  have hcast : ((380 + 79 * 5 : ℕ) : ℝ) = 775 := by norm_num
  unfold me6500
  rw [hcast]
  exact planck_bound_at 775 (3597 / 20150) _ _ (by norm_num) (by norm_num)
    (by norm_num) (by norm_num) (by norm_num [expP9]) (by norm_num [expP9])

/-- Certified bounds on the Planck sample at 780 nm (index 80). -/
theorem pb80 : (80601419994825 : ℝ) ≤ me6500 80 ∧ me6500 80 ≤ 80601419995436 := by
  have hcast : ((380 + 80 * 5 : ℕ) : ℝ) = 780 := by norm_num
  unfold me6500
  rw [hcast]
  exact planck_bound_at 780 (3597 / 20280) _ _ (by norm_num) (by norm_num)
    (by norm_num) (by norm_num) (by norm_num [expP9]) (by norm_num [expP9])

set_option maxHeartbeats 1000000 in
/-- All 81 certified sample bounds, assembled. -/
theorem bnd6500_ok : srcBounds me6500 0 BND6500 := by
  unfold BND6500
  exact ⟨pb0, pb1, pb2, pb3, pb4, pb5, pb6, pb7, pb8, pb9, pb10, pb11, pb12, pb13, pb14, pb15, pb16, pb17, pb18, pb19, pb20, pb21, pb22, pb23, pb24, pb25, pb26, pb27, pb28, pb29, pb30, pb31, pb32, pb33, pb34, pb35, pb36, pb37, pb38, pb39, pb40, pb41, pb42, pb43, pb44, pb45, pb46, pb47, pb48, pb49, pb50, pb51, pb52, pb53, pb54, pb55, pb56, pb57, pb58, pb59, pb60, pb61, pb62, pb63, pb64, pb65, pb66, pb67, pb68, pb69, pb70, pb71, pb72, pb73, pb74, pb75, pb76, pb77, pb78, pb79, pb80, trivial⟩

/-- Interval bounds for the indexed accumulation fold, given certified
bounds for the source samples and a non-negative table. -/
theorem accum_bounds (me : ℕ → ℝ) (l : List (ℝ × ℝ × ℝ)) :
    ∀ (bnd : List (ℝ × ℝ)) (k : ℕ) (s1 s2 s3 : ℝ),
      srcBounds me k bnd →
      (∀ cm ∈ l, 0 ≤ cm.1 ∧ 0 ≤ cm.2.1 ∧ 0 ≤ cm.2.2) →
      bnd.length = l.length →
      (s1 + wsum (bnd.map Prod.fst) (l.map (fun c => c.1)) ≤
          (l.foldl (fun (s : ℕ × ℝ × ℝ × ℝ) cm =>
            (s.1 + 1, s.2.1 + me s.1 * cm.1, s.2.2.1 + me s.1 * cm.2.1,
             s.2.2.2 + me s.1 * cm.2.2)) (k, s1, s2, s3)).2.1 ∧
        (l.foldl (fun (s : ℕ × ℝ × ℝ × ℝ) cm =>
            (s.1 + 1, s.2.1 + me s.1 * cm.1, s.2.2.1 + me s.1 * cm.2.1,
             s.2.2.2 + me s.1 * cm.2.2)) (k, s1, s2, s3)).2.1 ≤
          s1 + wsum (bnd.map Prod.snd) (l.map (fun c => c.1))) ∧
      (s2 + wsum (bnd.map Prod.fst) (l.map (fun c => c.2.1)) ≤
          (l.foldl (fun (s : ℕ × ℝ × ℝ × ℝ) cm =>
            (s.1 + 1, s.2.1 + me s.1 * cm.1, s.2.2.1 + me s.1 * cm.2.1,
             s.2.2.2 + me s.1 * cm.2.2)) (k, s1, s2, s3)).2.2.1 ∧
        (l.foldl (fun (s : ℕ × ℝ × ℝ × ℝ) cm =>
            (s.1 + 1, s.2.1 + me s.1 * cm.1, s.2.2.1 + me s.1 * cm.2.1,
             s.2.2.2 + me s.1 * cm.2.2)) (k, s1, s2, s3)).2.2.1 ≤
          s2 + wsum (bnd.map Prod.snd) (l.map (fun c => c.2.1))) ∧
      (s3 + wsum (bnd.map Prod.fst) (l.map (fun c => c.2.2)) ≤
          (l.foldl (fun (s : ℕ × ℝ × ℝ × ℝ) cm =>
            (s.1 + 1, s.2.1 + me s.1 * cm.1, s.2.2.1 + me s.1 * cm.2.1,
             s.2.2.2 + me s.1 * cm.2.2)) (k, s1, s2, s3)).2.2.2 ∧
        (l.foldl (fun (s : ℕ × ℝ × ℝ × ℝ) cm =>
            (s.1 + 1, s.2.1 + me s.1 * cm.1, s.2.2.1 + me s.1 * cm.2.1,
             s.2.2.2 + me s.1 * cm.2.2)) (k, s1, s2, s3)).2.2.2 ≤
          s3 + wsum (bnd.map Prod.snd) (l.map (fun c => c.2.2))) := by
  induction l with
  | nil =>
      intro bnd k s1 s2 s3 _ _ hlen
      rw [List.length_nil] at hlen
      rw [List.length_eq_zero] at hlen
      subst hlen
      simp [wsum]
  | cons cm rest ih =>
      intro bnd k s1 s2 s3 hb hnn hlen
      cases bnd with
      | nil => simp at hlen
      | cons p bs =>
          have hcm := hnn cm (List.mem_cons_self cm rest)
          have hnn' : ∀ c ∈ rest, 0 ≤ c.1 ∧ 0 ≤ c.2.1 ∧ 0 ≤ c.2.2 :=
            fun c hc => hnn c (List.mem_cons_of_mem cm hc)
          have hlen' : bs.length = rest.length := by
            simpa using hlen
          have hb1 := hb.1
          have hih := ih bs (k + 1) (s1 + me k * cm.1) (s2 + me k * cm.2.1)
            (s3 + me k * cm.2.2) hb.2 hnn' hlen'
          have e1 : p.1 * cm.1 ≤ me k * cm.1 :=
            mul_le_mul_of_nonneg_right hb1.1 hcm.1
          have e2 : me k * cm.1 ≤ p.2 * cm.1 :=
            mul_le_mul_of_nonneg_right hb1.2 hcm.1
          have e3 : p.1 * cm.2.1 ≤ me k * cm.2.1 :=
            mul_le_mul_of_nonneg_right hb1.1 hcm.2.1
          have e4 : me k * cm.2.1 ≤ p.2 * cm.2.1 :=
            mul_le_mul_of_nonneg_right hb1.2 hcm.2.1
          have e5 : p.1 * cm.2.2 ≤ me k * cm.2.2 :=
            mul_le_mul_of_nonneg_right hb1.1 hcm.2.2
          have e6 : me k * cm.2.2 ≤ p.2 * cm.2.2 :=
            mul_le_mul_of_nonneg_right hb1.2 hcm.2.2
          simp only [List.foldl_cons, List.map_cons, wsum] at hih ⊢
          refine ⟨⟨?_, ?_⟩, ⟨?_, ?_⟩, ?_, ?_⟩
          · linarith [hih.1.1]
          · linarith [hih.1.2]
          · linarith [hih.2.1.1]
          · linarith [hih.2.1.2]
          · linarith [hih.2.2.1]
          · linarith [hih.2.2.2]


set_option maxHeartbeats 1000000 in
/-- The accumulation loop of `spectrum_to_xyz` applied to the 6500 K Planck
source is the indexed fold over the color-matching table with `me6500`. -/
theorem spectrum_accumulate_planck :
    spectrum_accumulate (planck_value 6500) =
      ((CIE_COLOR_MATCH (α := ℝ)).foldl (fun (s : ℕ × ℝ × ℝ × ℝ) cm =>
        (s.1 + 1, s.2.1 + me6500 s.1 * cm.1, s.2.2.1 + me6500 s.1 * cm.2.1,
         s.2.2.2 + me6500 s.1 * cm.2.2)) (0, 0, 0, 0)).2 := rfl

/-- Every wavelength the loop samples is positive, so the Except-valued
`bb_spectrum 6500` succeeds there with exactly the Planck value used in
`main_xyz`. -/
theorem main_source_agrees (i : ℕ) :
    bb_spectrum 6500 ((380 + i * 5 : ℕ) : ℝ) =
      Except.ok (planck_value 6500 ((380 + i * 5 : ℕ) : ℝ)) := by
  have hpos : (0 : ℝ) < ((380 + i * 5 : ℕ) : ℝ) := by
    have h : (0 : ℕ) < 380 + i * 5 := by omega
    exact_mod_cast h
  have hwlm : ((380 + i * 5 : ℕ) : ℝ) * 1e-9 ≠ 0 := ne_of_gt (by positivity)
  have hprod : ((380 + i * 5 : ℕ) : ℝ) * 1e-9 * 6500 ≠ 0 := ne_of_gt (by positivity)
  have harg : 0 < (1.4388e-2 : ℝ) / (((380 + i * 5 : ℕ) : ℝ) * 1e-9 * 6500) := by
    positivity
  have hexp : Real.exp ((1.4388e-2 : ℝ) / (((380 + i * 5 : ℕ) : ℝ) * 1e-9 * 6500)) -
      1.0 ≠ 0 := by
    have hgt : 1 < Real.exp ((1.4388e-2 : ℝ) /
        (((380 + i * 5 : ℕ) : ℝ) * 1e-9 * 6500)) := Real.one_lt_exp_iff.mpr harg
    intro hc
    rw [sub_eq_zero] at hc
    rw [hc] at hgt
    norm_num at hgt
  simp only [bb_spectrum]
  rw [if_neg hwlm, if_neg hprod, if_neg hexp]

set_option maxHeartbeats 4000000 in
/-- Certified bounds on the accumulated X, Y, Z tristimulus sums of the
6500 K Planck source. -/
theorem acc6500_bounds :
    ((6844851694759987059/2500 : ℝ) ≤ (spectrum_accumulate (planck_value 6500)).1 ∧ (spectrum_accumulate (planck_value 6500)).1 ≤ 13689703393197158249/5000) ∧
    ((14131807624479312389/5000 : ℝ) ≤ (spectrum_accumulate (planck_value 6500)).2.1 ∧ (spectrum_accumulate (planck_value 6500)).2.1 ≤ 14131807626999332327/5000) ∧
    ((31679051423748837663/10000 : ℝ) ≤ (spectrum_accumulate (planck_value 6500)).2.2 ∧ (spectrum_accumulate (planck_value 6500)).2.2 ≤ 31679051452881216073/10000) := by
  have hnn : ∀ cm ∈ CIE_COLOR_MATCH (α := ℝ), 0 ≤ cm.1 ∧ 0 ≤ cm.2.1 ∧ 0 ≤ cm.2.2 := by
    simp only [CIE_COLOR_MATCH, List.forall_mem_cons, List.forall_mem_nil]
    norm_num
  have hlen : BND6500.length = (CIE_COLOR_MATCH (α := ℝ)).length := rfl
  have h := accum_bounds me6500 (CIE_COLOR_MATCH (α := ℝ)) BND6500 0 0 0 0
    bnd6500_ok hnn hlen
  have hwl1 : (0 : ℝ) + wsum (BND6500.map Prod.fst)
      ((CIE_COLOR_MATCH (α := ℝ)).map (fun c => c.1)) = 6844851694759987059/2500 := by
    norm_num [wsum, BND6500, CIE_COLOR_MATCH]
  have hwu1 : (0 : ℝ) + wsum (BND6500.map Prod.snd)
      ((CIE_COLOR_MATCH (α := ℝ)).map (fun c => c.1)) = 13689703393197158249/5000 := by
    norm_num [wsum, BND6500, CIE_COLOR_MATCH]
  have hwl2 : (0 : ℝ) + wsum (BND6500.map Prod.fst)
      ((CIE_COLOR_MATCH (α := ℝ)).map (fun c => c.2.1)) = 14131807624479312389/5000 := by
    norm_num [wsum, BND6500, CIE_COLOR_MATCH]
  have hwu2 : (0 : ℝ) + wsum (BND6500.map Prod.snd)
      ((CIE_COLOR_MATCH (α := ℝ)).map (fun c => c.2.1)) = 14131807626999332327/5000 := by
    norm_num [wsum, BND6500, CIE_COLOR_MATCH]
  have hwl3 : (0 : ℝ) + wsum (BND6500.map Prod.fst)
      ((CIE_COLOR_MATCH (α := ℝ)).map (fun c => c.2.2)) = 31679051423748837663/10000 := by
    norm_num [wsum, BND6500, CIE_COLOR_MATCH]
  have hwu3 : (0 : ℝ) + wsum (BND6500.map Prod.snd)
      ((CIE_COLOR_MATCH (α := ℝ)).map (fun c => c.2.2)) = 31679051452881216073/10000 := by
    norm_num [wsum, BND6500, CIE_COLOR_MATCH]
  rw [spectrum_accumulate_planck]
  refine ⟨⟨?_, ?_⟩, ⟨?_, ?_⟩, ?_, ?_⟩
  · linarith [h.1.1, hwl1]
  · linarith [h.1.2, hwu1]
  · linarith [h.2.1.1, hwl2]
  · linarith [h.2.1.2, hwu2]
  · linarith [h.2.2.1, hwl3]
  · linarith [h.2.2.2, hwu3]

/-- Interval division bounds. -/
theorem div_bounds (a b al au bl bu : ℝ) (hal : al ≤ a) (hau : a ≤ au)
    (hbl : bl ≤ b) (hbu : b ≤ bu) (h0a : 0 ≤ al) (h0b : 0 < bl) :
    al / bu ≤ a / b ∧ a / b ≤ au / bl := by
  have hb0 : 0 < b := lt_of_lt_of_le h0b hbl
  constructor
  · exact div_le_div₀ (by linarith) hal hb0 hbu
  · exact div_le_div₀ (by linarith) hau h0b hbl

set_option maxHeartbeats 1000000 in
/-- Certified bounds on the unscaled chromaticity that line 339 computes at
6500 K, before the tscale multiplication of line 340. -/
theorem main_xyz_bounds :
    ((0.3135450 : ℝ) ≤ main_xyz.1 ∧ main_xyz.1 ≤ 0.3135451) ∧
    ((0.3236709 : ℝ) ≤ main_xyz.2.1 ∧ main_xyz.2.1 ≤ 0.3236710) ∧
    ((0.3627840 : ℝ) ≤ main_xyz.2.2 ∧ main_xyz.2.2 ≤ 0.3627841) := by
  obtain ⟨⟨hX1, hX2⟩, ⟨hY1, hY2⟩, hZ1, hZ2⟩ := acc6500_bounds
  have hxv : main_xyz.1 = (spectrum_accumulate (planck_value 6500)).1 / ((spectrum_accumulate (planck_value 6500)).1 + (spectrum_accumulate (planck_value 6500)).2.1 + (spectrum_accumulate (planck_value 6500)).2.2) := by
    simp only [main_xyz, spectrum_to_xyz]
  have hyv : main_xyz.2.1 = (spectrum_accumulate (planck_value 6500)).2.1 / ((spectrum_accumulate (planck_value 6500)).1 + (spectrum_accumulate (planck_value 6500)).2.1 + (spectrum_accumulate (planck_value 6500)).2.2) := by
    simp only [main_xyz, spectrum_to_xyz]
  have hzv : main_xyz.2.2 = (spectrum_accumulate (planck_value 6500)).2.2 / ((spectrum_accumulate (planck_value 6500)).1 + (spectrum_accumulate (planck_value 6500)).2.1 + (spectrum_accumulate (planck_value 6500)).2.2) := by
    simp only [main_xyz, spectrum_to_xyz]
  have hxb := div_bounds (spectrum_accumulate (planck_value 6500)).1 ((spectrum_accumulate (planck_value 6500)).1 + (spectrum_accumulate (planck_value 6500)).2.1 + (spectrum_accumulate (planck_value 6500)).2.2) (6844851694759987059/2500) (13689703393197158249/5000)
    ((6844851694759987059/2500 : ℝ) + 14131807624479312389/5000 + 31679051423748837663/10000) ((13689703393197158249/5000 : ℝ) + 14131807626999332327/5000 + 31679051452881216073/10000)
    hX1 hX2 (by linarith) (by linarith) (by norm_num) (by norm_num)
  have hyb := div_bounds (spectrum_accumulate (planck_value 6500)).2.1 ((spectrum_accumulate (planck_value 6500)).1 + (spectrum_accumulate (planck_value 6500)).2.1 + (spectrum_accumulate (planck_value 6500)).2.2) (14131807624479312389/5000) (14131807626999332327/5000)
    ((6844851694759987059/2500 : ℝ) + 14131807624479312389/5000 + 31679051423748837663/10000) ((13689703393197158249/5000 : ℝ) + 14131807626999332327/5000 + 31679051452881216073/10000)
    hY1 hY2 (by linarith) (by linarith) (by norm_num) (by norm_num)
  have hzb := div_bounds (spectrum_accumulate (planck_value 6500)).2.2 ((spectrum_accumulate (planck_value 6500)).1 + (spectrum_accumulate (planck_value 6500)).2.1 + (spectrum_accumulate (planck_value 6500)).2.2) (31679051423748837663/10000) (31679051452881216073/10000)
    ((6844851694759987059/2500 : ℝ) + 14131807624479312389/5000 + 31679051423748837663/10000) ((13689703393197158249/5000 : ℝ) + 14131807626999332327/5000 + 31679051452881216073/10000)
    hZ1 hZ2 (by linarith) (by linarith) (by norm_num) (by norm_num)
  rw [hxv, hyv, hzv]
  refine ⟨⟨?_, ?_⟩, ⟨?_, ?_⟩, ?_, ?_⟩
  · calc (0.3135450 : ℝ) ≤ (6844851694759987059/2500 : ℝ) / ((13689703393197158249/5000 : ℝ) + 14131807626999332327/5000 + 31679051452881216073/10000) := by norm_num
      _ ≤ _ := hxb.1
  · calc (spectrum_accumulate (planck_value 6500)).1 / ((spectrum_accumulate (planck_value 6500)).1 + (spectrum_accumulate (planck_value 6500)).2.1 + (spectrum_accumulate (planck_value 6500)).2.2) ≤ (13689703393197158249/5000 : ℝ) / ((6844851694759987059/2500 : ℝ) + 14131807624479312389/5000 + 31679051423748837663/10000) := hxb.2
      _ ≤ 0.3135451 := by norm_num
  · calc (0.3236709 : ℝ) ≤ (14131807624479312389/5000 : ℝ) / ((13689703393197158249/5000 : ℝ) + 14131807626999332327/5000 + 31679051452881216073/10000) := by norm_num
      _ ≤ _ := hyb.1
  · calc (spectrum_accumulate (planck_value 6500)).2.1 / ((spectrum_accumulate (planck_value 6500)).1 + (spectrum_accumulate (planck_value 6500)).2.1 + (spectrum_accumulate (planck_value 6500)).2.2) ≤ (14131807626999332327/5000 : ℝ) / ((6844851694759987059/2500 : ℝ) + 14131807624479312389/5000 + 31679051423748837663/10000) := hyb.2
      _ ≤ 0.3236710 := by norm_num
  · calc (0.3627840 : ℝ) ≤ (31679051423748837663/10000 : ℝ) / ((13689703393197158249/5000 : ℝ) + 14131807626999332327/5000 + 31679051452881216073/10000) := by norm_num
      _ ≤ _ := hzb.1
  · calc (spectrum_accumulate (planck_value 6500)).2.2 / ((spectrum_accumulate (planck_value 6500)).1 + (spectrum_accumulate (planck_value 6500)).2.1 + (spectrum_accumulate (planck_value 6500)).2.2) ≤ (31679051452881216073/10000 : ℝ) / ((6844851694759987059/2500 : ℝ) + 14131807624479312389/5000 + 31679051423748837663/10000) := hzb.2
      _ ≤ 0.3627841 := by norm_num

/-- The exact rational xyz→rgb matrix of the SMPTE system. -/
theorem smpte_matrix :
    rx (SMPTE_SYSTEM : ColorSystem ℝ) / rW SMPTE_SYSTEM = 59827089/17052800 ∧
    ry (SMPTE_SYSTEM : ColorSystem ℝ) / rW SMPTE_SYSTEM = -29688111/17052800 ∧
    rz (SMPTE_SYSTEM : ColorSystem ℝ) / rW SMPTE_SYSTEM = -9283911/17052800 ∧
    gx (SMPTE_SYSTEM : ColorSystem ℝ) / gW SMPTE_SYSTEM = -4301337/4024675 ∧
    gy (SMPTE_SYSTEM : ColorSystem ℝ) / gW SMPTE_SYSTEM = 7957638/4024675 ∧
    gz (SMPTE_SYSTEM : ColorSystem ℝ) / gW SMPTE_SYSTEM = 141513/4024675 ∧
    bx (SMPTE_SYSTEM : ColorSystem ℝ) / bW SMPTE_SYSTEM = 951099/16879900 ∧
    bY (SMPTE_SYSTEM : ColorSystem ℝ) / bW SMPTE_SYSTEM = -3327201/16879900 ∧
    bz (SMPTE_SYSTEM : ColorSystem ℝ) / bW SMPTE_SYSTEM = 17735199/16879900 := by
  refine ⟨?_, ?_, ?_, ?_, ?_, ?_, ?_, ?_, ?_⟩ <;>
    norm_num [rx, ry, rz, gx, gy, gz, bx, bY, bz, rW, gW, bW, zr, zg, zb, zw,
      SMPTE_SYSTEM, ILLUMINANT_D65]

/-- The scale factor of the `__main__` loop at t = 6500 is exactly 27/23. -/
theorem main_tscale_value : main_tscale = 27 / 23 := by
  norm_num [main_tscale]

set_option maxHeartbeats 1000000 in
/-- Certified bounds on the linear RGB the program computes at 6500 K: all
three channels lie in [0, 0.40] — nowhere near the documented
(1.000, 0.937, 0.988). -/
theorem main_rgb_bounds :
    (0 ≤ main_rgb.1 ∧ main_rgb.1 ≤ 0.40) ∧
    (0 ≤ main_rgb.2.1 ∧ main_rgb.2.1 ≤ 0.38) ∧
    (0 ≤ main_rgb.2.2 ∧ main_rgb.2.2 ≤ 0.40) := by
  obtain ⟨⟨hx1, hx2⟩, ⟨hy1, hy2⟩, hz1, hz2⟩ := main_xyz_bounds
  obtain ⟨m1, m2, m3, m4, m5, m6, m7, m8, m9⟩ := smpte_matrix
  have hr : main_rgb.1 =
      rx (SMPTE_SYSTEM : ColorSystem ℝ) / rW SMPTE_SYSTEM * (main_xyz.1 * main_tscale) +
      ry (SMPTE_SYSTEM : ColorSystem ℝ) / rW SMPTE_SYSTEM * (main_xyz.2.1 * main_tscale) +
      rz (SMPTE_SYSTEM : ColorSystem ℝ) / rW SMPTE_SYSTEM * (main_xyz.2.2 * main_tscale) := by
    simp only [main_rgb, xyz_to_rgb, main_scaled]
  have hg : main_rgb.2.1 =
      gx (SMPTE_SYSTEM : ColorSystem ℝ) / gW SMPTE_SYSTEM * (main_xyz.1 * main_tscale) +
      gy (SMPTE_SYSTEM : ColorSystem ℝ) / gW SMPTE_SYSTEM * (main_xyz.2.1 * main_tscale) +
      gz (SMPTE_SYSTEM : ColorSystem ℝ) / gW SMPTE_SYSTEM * (main_xyz.2.2 * main_tscale) := by
    simp only [main_rgb, xyz_to_rgb, main_scaled]
  have hb : main_rgb.2.2 =
      bx (SMPTE_SYSTEM : ColorSystem ℝ) / bW SMPTE_SYSTEM * (main_xyz.1 * main_tscale) +
      bY (SMPTE_SYSTEM : ColorSystem ℝ) / bW SMPTE_SYSTEM * (main_xyz.2.1 * main_tscale) +
      bz (SMPTE_SYSTEM : ColorSystem ℝ) / bW SMPTE_SYSTEM * (main_xyz.2.2 * main_tscale) := by
    simp only [main_rgb, xyz_to_rgb, main_scaled]
  rw [m1, m2, m3, main_tscale_value] at hr
  rw [m4, m5, m6, main_tscale_value] at hg
  rw [m7, m8, m9, main_tscale_value] at hb
  refine ⟨⟨?_, ?_⟩, ⟨?_, ?_⟩, ?_, ?_⟩
  · rw [hr]; linarith
  · rw [hr]; linarith
  · rw [hg]; linarith
  · rw [hg]; linarith
  · rw [hb]; linarith
  · rw [hb]; linarith

/-- Helper: `constrain_rgb` is the identity on non-negative triples. -/
theorem constrain_rgb_eq_self {α : Type} [LinearOrderedField α] (r g b : α)
    (hr : 0 ≤ r) (hg : 0 ≤ g) (hb : 0 ≤ b) : constrain_rgb r g b = (r, g, b) := by
  simp only [constrain_rgb]
  split_ifs <;> first | rfl | (exfalso; linarith)

set_option maxHeartbeats 1000000 in
/-- C2 (code bug): at t = 6500 the `__main__` pipeline computes the
documented chromaticity (0.3135, 0.3237, 0.3628) — but only BEFORE the
tscale multiplication of line 340; the values the program actually prints
are the scaled chromaticity (whose x exceeds 0.36) and an unnormalized RGB
whose three channels all lie below 0.41, not the documented and claimed
(1.000, 0.937, 0.988).  The desaturation step indeed does not fire
(`constrain_rgb` returns its input unchanged), as the claim says. -/
theorem main_6500_mismatch :
    (|main_xyz.1 - 0.3135| ≤ 5e-4 ∧ |main_xyz.2.1 - 0.3237| ≤ 5e-4 ∧
      |main_xyz.2.2 - 0.3628| ≤ 5e-4) ∧
    main_constrained = main_rgb ∧
    0.36 < main_scaled.1 ∧
    main_rgb.1 < 0.41 ∧ main_rgb.2.1 < 0.41 ∧ main_rgb.2.2 < 0.41 := by
  obtain ⟨⟨hx1, hx2⟩, ⟨hy1, hy2⟩, hz1, hz2⟩ := main_xyz_bounds
  obtain ⟨⟨hr0, hr1⟩, ⟨hg0, hg1⟩, hb0, hb1⟩ := main_rgb_bounds
  refine ⟨⟨?_, ?_, ?_⟩, ?_, ?_, ?_, ?_, ?_⟩
  · rw [abs_le]; constructor <;> linarith
  · rw [abs_le]; constructor <;> linarith
  · rw [abs_le]; constructor <;> linarith
  · show constrain_rgb main_rgb.1 main_rgb.2.1 main_rgb.2.2 = main_rgb
    rw [constrain_rgb_eq_self main_rgb.1 main_rgb.2.1 main_rgb.2.2 hr0 hg0 hb0]
  · have hs : main_scaled.1 = main_xyz.1 * main_tscale := by
      simp only [main_scaled]
    rw [hs, main_tscale_value]
    linarith
  · linarith
  · linarith
  · linarith

end Specrend
